import Mathlib

/-!
# Kitchen fire suppression calculator: estimator and record store

A shallow embedding of `src/script.js` (the module `KFSSCalculator`).

Conventions of the embedding:

* JavaScript numbers are exact rationals (`ℚ`); values that the program obtains
  with `parseInt`, and the nozzle counts of the catalogue, are integers (`ℤ`).
  IEEE rounding of doubles is not part of the model.
* The exchange rate and the amounts computed with it are of type `JsNumber`: a number, or a
  value that is not a number. `exchangeRates[currency]` finds the members that the table
  inherits from `Object.prototype` (a function or an object), and arithmetic with such a value
  gives `NaN`.
* A numeric form field is given by the result of `parseFloat` / `parseInt` on its
  text: `none` stands for `NaN` (an empty, absent or non-numeric field).
* A text form field is `none` when the element is absent from the page.
* The module's variables (`currentCalculation`, `recentCalculations`,
  `expertMode`), the form and `localStorage` make up an explicit `State`.
* `JSON.stringify` / `JSON.parse` and the clock (`Date.now()`,
  `new Date().toISOString()`) are parameters of the operations that use them.
-/

namespace KFSS

/-! ## JavaScript values used as numbers -/

/-- A value where the program expects a number: a number, or a value that is not one (`NaN`, or a
function or object found on `Object.prototype`). -/
inductive JsNumber where
  | num (q : ℚ)
  | notNumber
deriving DecidableEq

/-- A number as a `JsNumber`. -/
instance : Coe ℚ JsNumber := ⟨JsNumber.num⟩

/-- Numerals denote numbers. -/
instance (n : ℕ) [OfNat ℚ n] : OfNat JsNumber n := ⟨JsNumber.num (OfNat.ofNat n)⟩

/-- Decimal literals denote numbers. -/
instance : OfScientific JsNumber :=
  ⟨fun m s e => JsNumber.num (OfScientific.ofScientific m s e)⟩

/-- The operator `+` on numbers; with an operand that is not a number the result is `NaN`. -/
def JsNumber.add : JsNumber → JsNumber → JsNumber
  | JsNumber.num a, JsNumber.num b => JsNumber.num (a + b)
  | _, _ => JsNumber.notNumber

/-- The operator `*`; with an operand that is not a number the result is `NaN`. -/
def JsNumber.mul : JsNumber → JsNumber → JsNumber
  | JsNumber.num a, JsNumber.num b => JsNumber.num (a * b)
  | _, _ => JsNumber.notNumber

/-- The operator `/`; with an operand that is not a number the result is `NaN`. -/
def JsNumber.div : JsNumber → JsNumber → JsNumber
  | JsNumber.num a, JsNumber.num b => JsNumber.num (a / b)
  | _, _ => JsNumber.notNumber

/-- The comparison `<=`: false as soon as one side is not a number. -/
def JsNumber.le : JsNumber → JsNumber → Prop
  | JsNumber.num a, JsNumber.num b => a ≤ b
  | _, _ => False

instance : Add JsNumber := ⟨JsNumber.add⟩

instance : Mul JsNumber := ⟨JsNumber.mul⟩

instance : Div JsNumber := ⟨JsNumber.div⟩

instance : LE JsNumber := ⟨JsNumber.le⟩

instance : Zero JsNumber := ⟨JsNumber.num 0⟩

instance (a b : JsNumber) : Decidable (a ≤ b) :=
  match a, b with
  | JsNumber.num x, JsNumber.num y => inferInstanceAs (Decidable (x ≤ y))
  | JsNumber.num _, JsNumber.notNumber => isFalse (fun h => h)
  | JsNumber.notNumber, _ => isFalse (fun h => h)

/-! ## Data model -/

/-- An entry of `standardAppliances`, also the shape pushed to `selectedAppliances`. -/
structure Appliance where
  id : String
  name : String
  nozzles : ℤ
  price : ℚ
deriving DecidableEq

/-- The table `standardAppliances` (script.js 13-22). -/
def standardAppliances : List Appliance :=
  [ { id := "fryer", name := "Deep Fryer", nozzles := 1, price := 850 },
    { id := "range", name := "Cooking Range", nozzles := 2, price := 1200 },
    { id := "grill", name := "Griddle/Grill", nozzles := 1, price := 750 },
    { id := "broiler", name := "Broiler", nozzles := 1, price := 900 },
    { id := "wok", name := "Wok Station", nozzles := 2, price := 1100 },
    { id := "oven", name := "Convection Oven", nozzles := 1, price := 650 },
    { id := "steamer", name := "Steamer", nozzles := 1, price := 700 },
    { id := "dishwasher", name := "Dishwasher", nozzles := 1, price := 600 } ]

/-- The shape of the object `pricing`. -/
structure Pricing where
  nozzle : ℚ
  cylinder_5kg : ℚ
  cylinder_10kg : ℚ
  piping_per_meter : ℚ
  hood_agent_tank : ℚ
  manual_release : ℚ
  installation_labor : ℚ
  commissioning : ℚ

/-- The table `pricing` (script.js 25-34), in USD. -/
def pricing : Pricing :=
  { nozzle := 85,
    cylinder_5kg := 1200,
    cylinder_10kg := 1900,
    piping_per_meter := 35,
    hood_agent_tank := 1800,
    manual_release := 250,
    installation_labor := 850,
    commissioning := 400 }

/-- The names of the members that an object literal inherits from `Object.prototype`. -/
def objectPrototypeKeys : List String :=
  ["constructor", "hasOwnProperty", "isPrototypeOf", "propertyIsEnumerable", "toLocaleString",
    "toString", "valueOf", "__proto__", "__defineGetter__", "__defineSetter__",
    "__lookupGetter__", "__lookupSetter__"]

/-- The table `exchangeRates` (script.js 37-42), as the lookup `exchangeRates[currency]`: the
rate for a key of the table, a value that is not a number (a function or an object) for a name
inherited from `Object.prototype`, and `none` (`undefined`) for every other string. -/
def exchangeRates (currency : String) : Option JsNumber :=
  if currency = "USD" then some 1.0
  else if currency = "EUR" then some 0.92
  else if currency = "INR" then some 83.0
  else if currency = "AED" then some 3.67
  else if currency ∈ objectPrototypeKeys then some JsNumber.notNumber
  else none

/-- The field `project` of a calculation record. -/
structure Project where
  name : String
  client : String
  location : String
  currency : String
deriving DecidableEq

/-- The field `configuration.hood` of a calculation record. -/
structure Hood where
  length : ℚ
  depth : ℚ
  area : ℚ
  material : String
  plenumSections : ℤ
  ductSections : ℤ
  ductLength : ℚ
deriving DecidableEq

/-- The field `configuration.system` of a calculation record. -/
structure SystemSettings where
  nozzleType : String
  pipeMaterial : String
  safetyFactor : ℤ
  pressureRating : ℤ
  additionalNotes : String
deriving DecidableEq

/-- The field `configuration` of a calculation record. -/
structure Configuration where
  hood : Hood
  appliances : List Appliance
  system : SystemSettings
deriving DecidableEq

/-- The field `results.nozzles` of a calculation record. -/
structure Nozzles where
  plenum : ℤ
  duct : ℤ
  appliances : ℤ
  total : ℤ
deriving DecidableEq

/-- The object `subtotals`, its keys in insertion order. -/
structure Subtotals where
  nozzles : ℚ
  cylinders : ℚ
  piping : ℚ
  hoodAgentTank : ℚ
  manualRelease : ℚ
  installationLabor : ℚ
  commissioning : ℚ
  appliances : ℚ
deriving DecidableEq

/-- The field `results` of a calculation record. -/
structure Results where
  nozzles : Nozzles
  cylinders : ℤ
  agentWeight : ℚ
  pipingLength : ℚ
  subtotals : Subtotals
  totalCost : JsNumber
  exchangeRate : JsNumber
deriving DecidableEq

/-- The calculation record built by `performCalculation` (script.js 353-395). -/
structure Calculation where
  id : ℕ
  timestamp : String
  project : Project
  configuration : Configuration
  results : Results
deriving DecidableEq

/-- An element of class `appliance-item` in the appliance list: its `dataset` and whether its
class list holds `selected`. The dataset values are the numbers the program wrote there. -/
structure ApplianceItem where
  id : String
  nozzles : ℤ
  price : ℚ
  selected : Bool
deriving DecidableEq

/-- The form of the page, as the program reads it; `expertModeToggle` tells whether the element
`expertModeToggle` is on the page. -/
structure Form where
  projectName : Option String
  clientName : Option String
  projectLocation : Option String
  hoodLength : Option ℚ
  hoodDepth : Option ℚ
  plenumSections : Option ℤ
  ductSections : Option ℤ
  currency : Option String
  hoodMaterial : Option String
  ductLength : Option ℚ
  nozzleType : Option String
  pipeMaterial : Option String
  safetyFactor : Option ℤ
  pressureRating : Option ℤ
  additionalNotes : Option String
  customAppliance : String
  customNozzles : Option ℤ
  expertModeToggle : Bool
  applianceItems : List ApplianceItem
deriving DecidableEq

/-- The three `localStorage` keys of the program; `none` when the key is not set. -/
structure Storage where
  kfss_last_calculation : Option String
  kfss_recent_calculations : Option String
  kfss_expert_mode : Option String
deriving DecidableEq

/-- The module state: the three private variables, the form and the storage. -/
structure State where
  currentCalculation : Option Calculation
  recentCalculations : List Calculation
  expertMode : Bool
  form : Form
  storage : Storage
deriving DecidableEq

/-- The interface to `JSON.stringify` and `JSON.parse`, for a record and for the list of recent
records; a parse that throws is `none`. -/
structure Serializer where
  stringify : Calculation → String
  stringifyList : List Calculation → String
  parse : String → Option Calculation
  parseList : String → Option (List Calculation)

/-- The two clock reads of `performCalculation`: `Date.now()` and `new Date().toISOString()`. -/
structure Clock where
  now : ℕ
  iso : String

/-- What an operation does besides changing the state: nothing, an `alert`, or setting
`window.location.href`. -/
inductive Outcome where
  | done
  | alert (msg : String)
  | redirect (href : String)
deriving DecidableEq

/-! ## JavaScript operators used by the program -/

/-- The expression `x || d` for a number `x` (`NaN` and `0` are falsy). -/
def orNum (x : Option ℚ) (d : ℚ) : ℚ :=
  match x with
  | none => d
  | some v => if v = 0 then d else v

/-- The expression `x || d` for a number `x` that came from `parseInt`. -/
def orInt (x : Option ℤ) (d : ℤ) : ℤ :=
  match x with
  | none => d
  | some v => if v = 0 then d else v

/-- The expression `x || d` for an exchange rate `x`: `undefined` and `0` are falsy; a value that
is not a number is here a function or an object, which is truthy. -/
def orRate (x : Option JsNumber) (d : JsNumber) : JsNumber :=
  match x with
  | none => d
  | some (JsNumber.num v) => if v = 0 then d else JsNumber.num v
  | some JsNumber.notNumber => JsNumber.notNumber

/-- The expression `el?.value || d` for a string (`undefined` and the empty string are falsy). -/
def orStr (x : Option String) (d : String) : String :=
  match x with
  | none => d
  | some s => if s = "" then d else s

/-- The code points that `String.prototype.trim` removes (white space and line terminators). -/
def isJsWhitespace (c : Char) : Bool :=
  let n := c.toNat
  n = 9 || n = 10 || n = 11 || n = 12 || n = 13 || n = 32 || n = 160 || n = 5760 ||
    (8192 ≤ n && n ≤ 8202) || n = 8232 || n = 8233 || n = 8239 || n = 8287 || n = 12288 ||
    n = 65279

/-- The method `String.prototype.trim`. -/
def jsTrim (s : String) : String :=
  String.mk ((s.data.dropWhile isJsWhitespace).reverse.dropWhile isJsWhitespace).reverse

/-- The expression `Math.ceil(n / 6)` for an integer `n`. -/
def ceilDiv6 (n : ℤ) : ℤ := ⌈(n : ℚ) / 6⌉

/-! ## The full calculation -/

/-- The constants read from the form at the start of `performCalculation` (script.js 273-289). -/
structure FormValues where
  projectName : String
  clientName : String
  projectLocation : String
  hoodLength : ℚ
  hoodDepth : ℚ
  plenumSections : ℤ
  ductSections : ℤ
  currency : String
  hoodMaterial : String
  ductLength : ℚ
  nozzleType : String
  pipeMaterial : String
  safetyFactor : ℤ
  pressureRating : ℤ
  additionalNotes : String
deriving DecidableEq

/-- Reading the form in `performCalculation` (script.js 273-289). -/
def readForm (f : Form) : FormValues :=
  { projectName := orStr f.projectName "Unnamed Project",
    clientName := orStr f.clientName "Unnamed Client",
    projectLocation := orStr f.projectLocation "",
    hoodLength := orNum f.hoodLength 0,
    hoodDepth := orNum f.hoodDepth 0,
    plenumSections := orInt f.plenumSections 0,
    ductSections := orInt f.ductSections 0,
    currency := orStr f.currency "USD",
    hoodMaterial := orStr f.hoodMaterial "stainless",
    ductLength := orNum f.ductLength 5.0,
    nozzleType := orStr f.nozzleType "standard",
    pipeMaterial := orStr f.pipeMaterial "galvanized",
    safetyFactor := orInt f.safetyFactor 10,
    pressureRating := orInt f.pressureRating 100,
    additionalNotes := orStr f.additionalNotes "" }

/-- The list `selectedAppliances` of `performCalculation` (script.js 302-317): for each selected
item, in page order, the catalogue entry with the item's id, when there is one. -/
def selectAppliances (items : List ApplianceItem) : List Appliance :=
  (items.filter (fun item => item.selected)).filterMap
    (fun item => standardAppliances.find? (fun a => decide (a.id = item.id)))

/-- The sum `selectedAppliances.reduce((sum, app) => sum + app.nozzles, 0)`. -/
def sumNozzles (selectedAppliances : List Appliance) : ℤ :=
  selectedAppliances.foldl (fun sum app => sum + app.nozzles) 0

/-- The sum `selectedAppliances.reduce((sum, app) => sum + app.price, 0)`. -/
def sumPrices (selectedAppliances : List Appliance) : ℚ :=
  selectedAppliances.foldl (fun sum app => sum + app.price) 0

/-- The object `subtotals` before the safety factor (script.js 328-337). -/
def baseSubtotals (totalNozzles cylindersRequired : ℤ) (pipingLength : ℚ)
    (selectedAppliances : List Appliance) : Subtotals :=
  { nozzles := totalNozzles * pricing.nozzle,
    cylinders := cylindersRequired *
      (if cylindersRequired > 1 then pricing.cylinder_10kg else pricing.cylinder_5kg),
    piping := pipingLength * pricing.piping_per_meter,
    hoodAgentTank := pricing.hood_agent_tank,
    manualRelease := pricing.manual_release,
    installationLabor := pricing.installation_labor,
    commissioning := pricing.commissioning,
    appliances := sumPrices selectedAppliances }

/-- The loop `Object.keys(subtotals).forEach(key => subtotals[key] *= m)` (script.js 341-343). -/
def Subtotals.scale (s : Subtotals) (m : ℚ) : Subtotals :=
  { nozzles := s.nozzles * m,
    cylinders := s.cylinders * m,
    piping := s.piping * m,
    hoodAgentTank := s.hoodAgentTank * m,
    manualRelease := s.manualRelease * m,
    installationLabor := s.installationLabor * m,
    commissioning := s.commissioning * m,
    appliances := s.appliances * m }

/-- The array `Object.values(subtotals)`. -/
def Subtotals.values (s : Subtotals) : List ℚ :=
  [s.nozzles, s.cylinders, s.piping, s.hoodAgentTank, s.manualRelease, s.installationLabor,
    s.commissioning, s.appliances]

/-- The sum `Object.values(subtotals).reduce((sum, val) => sum + val, 0)` (script.js 346). -/
def Subtotals.total (s : Subtotals) : ℚ :=
  s.values.foldl (fun sum val => sum + val) 0

/-- The expression `exchangeRates[currency] || 1` (script.js 349). -/
def exchangeRateFor (currency : String) : JsNumber :=
  orRate (exchangeRates currency) 1

/-- The object `subtotals` after the safety factor (script.js 328-343). -/
def scaledSubtotals (expertMode : Bool) (v : FormValues) (selectedAppliances : List Appliance) :
    Subtotals :=
  let applianceNozzles := sumNozzles selectedAppliances
  let totalNozzles := v.plenumSections + v.ductSections + applianceNozzles
  let cylindersRequired := ceilDiv6 totalNozzles
  let pipingLength : ℚ := (totalNozzles * 2) + 5 + (if expertMode then v.ductLength else 0)
  let subtotals := baseSubtotals totalNozzles cylindersRequired pipingLength selectedAppliances
  let safetyMultiplier : ℚ := 1 + (v.safetyFactor / 100)
  subtotals.scale safetyMultiplier

/-- The record that `performCalculation` builds (script.js 319-395). -/
def buildCalculation (expertMode : Bool) (clock : Clock) (v : FormValues)
    (selectedAppliances : List Appliance) : Calculation :=
  let hoodArea := v.hoodLength * v.hoodDepth
  let applianceNozzles := sumNozzles selectedAppliances
  let totalNozzles := v.plenumSections + v.ductSections + applianceNozzles
  let cylindersRequired := ceilDiv6 totalNozzles
  let agentWeight : ℚ := cylindersRequired * 5.7
  let pipingLength : ℚ := (totalNozzles * 2) + 5 + (if expertMode then v.ductLength else 0)
  let subtotals := scaledSubtotals expertMode v selectedAppliances
  let totalCost := subtotals.total
  let exchangeRate := exchangeRateFor v.currency
  let totalCost : JsNumber := totalCost * exchangeRate
  { id := clock.now,
    timestamp := clock.iso,
    project :=
      { name := v.projectName,
        client := v.clientName,
        location := v.projectLocation,
        currency := v.currency },
    configuration :=
      { hood :=
          { length := v.hoodLength,
            depth := v.hoodDepth,
            area := hoodArea,
            material := v.hoodMaterial,
            plenumSections := v.plenumSections,
            ductSections := v.ductSections,
            ductLength := v.ductLength },
        appliances := selectedAppliances,
        system :=
          { nozzleType := v.nozzleType,
            pipeMaterial := v.pipeMaterial,
            safetyFactor := v.safetyFactor,
            pressureRating := v.pressureRating,
            additionalNotes := v.additionalNotes } },
    results :=
      { nozzles :=
          { plenum := v.plenumSections,
            duct := v.ductSections,
            appliances := applianceNozzles,
            total := totalNozzles },
        cylinders := cylindersRequired,
        agentWeight := agentWeight,
        pipingLength := pipingLength,
        subtotals := subtotals,
        totalCost := totalCost,
        exchangeRate := exchangeRate } }

/-- The function `addToRecentCalculations` (script.js 555-566). -/
def addToRecentCalculations (ser : Serializer) (calculation : Calculation) (st : State) : State :=
  let unshifted := calculation :: st.recentCalculations
  let recent := if unshifted.length > 5 then unshifted.take 5 else unshifted
  { st with
    recentCalculations := recent,
    storage :=
      { st.storage with kfss_recent_calculations := some (ser.stringifyList recent) } }

/-- The function `performCalculation` (script.js 271-408). -/
def performCalculation (ser : Serializer) (clock : Clock) (st : State) : State × Outcome :=
  let v := readForm st.form
  if jsTrim v.projectName = "" ∨ jsTrim v.clientName = "" then
    (st, Outcome.alert "Please fill in Project Name and Client Name")
  else if v.hoodLength ≤ 0 ∨ v.hoodDepth ≤ 0 then
    (st, Outcome.alert "Please enter valid hood dimensions")
  else
    let calculation :=
      buildCalculation st.expertMode clock v (selectAppliances st.form.applianceItems)
    let st1 : State :=
      { st with
        currentCalculation := some calculation,
        storage :=
          { st.storage with kfss_last_calculation := some (ser.stringify calculation) } }
    (addToRecentCalculations ser calculation st1, Outcome.redirect "results.html")

/-! ## The preview and the custom appliances -/

/-- The values that `updateSummary` writes to the summary panel, before they are formatted. -/
structure Summary where
  hoodArea : ℚ
  plenumNozzles : ℤ
  ductNozzles : ℤ
  applianceNozzles : ℤ
  totalNozzles : ℤ
  cylinders : ℤ
  agentWeight : ℚ
  pipingLength : ℚ
  currency : String
  totalCost : JsNumber
deriving DecidableEq

/-- The function `updateSummary` (script.js 202-266), as the values it computes for the panel. -/
def updateSummary (st : State) : Summary :=
  let hoodLength := orNum st.form.hoodLength 3.0
  let hoodDepth := orNum st.form.hoodDepth 1.2
  let plenumSections := orInt st.form.plenumSections 2
  let ductSections := orInt st.form.ductSections 1
  let currency := orStr st.form.currency "USD"
  let hoodArea := hoodLength * hoodDepth
  let selectedAppliances := st.form.applianceItems.filter (fun item => item.selected)
  let applianceNozzles : ℤ :=
    selectedAppliances.foldl (fun acc item => acc + orInt (some item.nozzles) 1) 0
  let applianceCost : ℚ :=
    selectedAppliances.foldl (fun acc item => acc + orNum (some item.price) 0) 0
  let totalNozzles := plenumSections + ductSections + applianceNozzles
  let cylindersRequired := ceilDiv6 totalNozzles
  let agentWeight : ℚ := cylindersRequired * 5.7
  let pipingLength : ℚ := (totalNozzles * 2) + 5
  let totalCost : ℚ := 0
  let totalCost := totalCost + totalNozzles * pricing.nozzle
  let totalCost := totalCost + cylindersRequired *
    (if cylindersRequired > 1 then pricing.cylinder_10kg else pricing.cylinder_5kg)
  let totalCost := totalCost + pipingLength * pricing.piping_per_meter
  let totalCost := totalCost + pricing.hood_agent_tank
  let totalCost := totalCost + pricing.manual_release
  let totalCost := totalCost + pricing.installation_labor
  let totalCost := totalCost + pricing.commissioning
  let totalCost := totalCost + applianceCost
  let exchangeRate := exchangeRateFor currency
  let totalCost : JsNumber := totalCost * exchangeRate
  { hoodArea := hoodArea,
    plenumNozzles := plenumSections,
    ductNozzles := ductSections,
    applianceNozzles := applianceNozzles,
    totalNozzles := totalNozzles,
    cylinders := cylindersRequired,
    agentWeight := agentWeight,
    pipingLength := pipingLength,
    currency := currency,
    totalCost := totalCost }

/-- The function `addCustomAppliance` (script.js 413-456): `now` is the value of `Date.now()`. -/
def addCustomAppliance (now : ℕ) (st : State) : State × Outcome :=
  let name := jsTrim st.form.customAppliance
  let nozzles := orInt st.form.customNozzles 1
  if name = "" then
    (st, Outcome.alert "Please enter appliance name")
  else if nozzles < 1 ∨ nozzles > 5 then
    (st, Outcome.alert "Please enter nozzle count between 1-5")
  else
    let item : ApplianceItem :=
      { id := "custom-" ++ toString now,
        nozzles := nozzles,
        price := nozzles * 600,
        selected := true }
    ({ st with
       form :=
         { st.form with
           applianceItems := st.form.applianceItems ++ [item],
           customAppliance := "",
           customNozzles := some 1 } },
     Outcome.done)

/-! ## Reset, reload and start-up -/

/-- The selector `[data-id^="custom-"]`: the id starts with `custom-`. -/
def isCustomId (id : String) : Bool :=
  id.data.take 7 == "custom-".data

/-- The function `resetCalculator` (script.js 461-501); `confirmed` is the answer of the
`confirm` dialog. The form elements it assigns to are taken to be on the page. -/
def resetCalculator (confirmed : Bool) (st : State) : State :=
  if !confirmed then st
  else
    let deselected :=
      st.form.applianceItems.map (fun item => { item with selected := false })
    { st with
      form :=
        { st.form with
          projectName := some "Commercial Kitchen Design",
          clientName := some "Restaurant Corporation",
          projectLocation := some "",
          hoodLength := some 3.0,
          hoodDepth := some 1.2,
          plenumSections := some 2,
          ductSections := some 1,
          currency := some "USD",
          hoodMaterial := some "stainless",
          ductLength := some 5.0,
          nozzleType := some "standard",
          pipeMaterial := some "galvanized",
          safetyFactor := some 10,
          pressureRating := some 100,
          additionalNotes := some "",
          applianceItems := deselected.filter (fun item => !isCustomId item.id) },
      currentCalculation := none,
      storage := { st.storage with kfss_last_calculation := none } }

/-- The function `updateFormFromCalculation` (script.js 506-550): the form fields it assigns,
the expert fields only when the stored value is truthy. -/
def updateFormFromCalculation (st : State) : State :=
  match st.currentCalculation with
  | none => st
  | some record =>
    { st with
      form :=
        { st.form with
          projectName := some record.project.name,
          clientName := some record.project.client,
          projectLocation := some (orStr (some record.project.location) ""),
          currency := some record.project.currency,
          hoodLength := some record.configuration.hood.length,
          hoodDepth := some record.configuration.hood.depth,
          plenumSections := some record.configuration.hood.plenumSections,
          ductSections := some record.configuration.hood.ductSections,
          hoodMaterial :=
            if record.configuration.hood.material = "" then st.form.hoodMaterial
            else some record.configuration.hood.material,
          ductLength :=
            if record.configuration.hood.ductLength = 0 then st.form.ductLength
            else some record.configuration.hood.ductLength,
          nozzleType :=
            if record.configuration.system.nozzleType = "" then st.form.nozzleType
            else some record.configuration.system.nozzleType,
          pipeMaterial :=
            if record.configuration.system.pipeMaterial = "" then st.form.pipeMaterial
            else some record.configuration.system.pipeMaterial,
          safetyFactor :=
            if record.configuration.system.safetyFactor = 0 then st.form.safetyFactor
            else some record.configuration.system.safetyFactor,
          pressureRating :=
            if record.configuration.system.pressureRating = 0 then st.form.pressureRating
            else some record.configuration.system.pressureRating,
          additionalNotes :=
            if record.configuration.system.additionalNotes = "" then st.form.additionalNotes
            else some record.configuration.system.additionalNotes } }

/-- The function `loadRecentCalculation` (script.js 646-655). -/
def loadRecentCalculation (ser : Serializer) (id : ℤ) (st : State) : State × Outcome :=
  match st.recentCalculations.find? (fun record => decide ((record.id : ℤ) = id)) with
  | none => (st, Outcome.done)
  | some calculation =>
    let st1 : State :=
      { st with
        currentCalculation := some calculation,
        storage :=
          { st.storage with kfss_last_calculation := some (ser.stringify calculation) } }
    (updateFormFromCalculation st1,
      Outcome.alert ("Loaded calculation: " ++ calculation.project.name))

/-- The function `loadRecentCalculations` (script.js 571-583): a missing or empty saved string
leaves the list as it is, a string that does not parse makes it empty. -/
def loadRecentCalculations (ser : Serializer) (st : State) : State :=
  match st.storage.kfss_recent_calculations with
  | none => st
  | some saved =>
    if saved = "" then st
    else
      match ser.parseList saved with
      | some parsed => { st with recentCalculations := parsed }
      | none => { st with recentCalculations := [] }

/-- The function `initializeAppliances` (script.js 81-106): the list holds the catalogue items,
none selected. The element `applianceList` is taken to be on the page. -/
def initializeAppliances (st : State) : State :=
  { st with
    form :=
      { st.form with
        applianceItems :=
          standardAppliances.map
            (fun a => { id := a.id, nozzles := a.nozzles, price := a.price, selected := false }) } }

/-- The state change of `setupExpertModeToggle` (script.js 157-167): on a page without the
toggle the function returns at once; otherwise `expertMode` is read from the storage. -/
def setupExpertModeToggle (st : State) : State :=
  if !st.form.expertModeToggle then st
  else { st with expertMode := decide (st.storage.kfss_expert_mode = some "true") }

/-- The function `init` (script.js 55-76). -/
def init (ser : Serializer) (st : State) : State :=
  let st1 := setupExpertModeToggle (initializeAppliances (loadRecentCalculations ser st))
  match st1.storage.kfss_last_calculation with
  | none => st1
  | some lastCalc =>
    if lastCalc = "" then st1
    else
      match ser.parse lastCalc with
      | some parsed => updateFormFromCalculation { st1 with currentCalculation := some parsed }
      | none => st1

/-- The module variables as script.js 8-10 declares them, with a given page and storage. -/
def initialState (form : Form) (storage : Storage) : State :=
  { currentCalculation := none,
    recentCalculations := [],
    expertMode := false,
    form := form,
    storage := storage }

/-! ## The results view and the quotation -/

/-- The amounts that `generateResultsHTML` displays, before `toFixed(2)` and the currency symbol:
one per key of `subtotals`, one per appliance, and the Total System Cost. -/
structure ResultsView where
  costBreakdown : List JsNumber
  applianceCosts : List JsNumber
  totalSystemCost : JsNumber
deriving DecidableEq

/-- The function `generateResultsHTML` (script.js 695-841), as the amounts it formats:
`formatCost(amount)` shows `amount * exchangeRate` with `exchangeRate` the stored rate `|| 1`. -/
def generateResultsHTML (calculation : Calculation) : ResultsView :=
  let exchangeRate := orRate (some calculation.results.exchangeRate) 1
  let formatCost := fun (amount : JsNumber) => amount * exchangeRate
  { costBreakdown :=
      calculation.results.subtotals.values.map (fun amount => formatCost (JsNumber.num amount)),
    applianceCosts :=
      calculation.configuration.appliances.map (fun a => formatCost (JsNumber.num a.price)),
    totalSystemCost := formatCost calculation.results.totalCost }

/-- The amounts of the table that `generateQuotationHTML` builds, before `toFixed(2)` and the
currency symbol: the totals of the seven fixed rows in table order, the totals of the appliance
rows, and the SUBTOTAL, Safety Factor (with the percentage of its label) and TOTAL QUOTATION
AMOUNT rows. -/
structure QuotationView where
  itemTotals : List JsNumber
  applianceTotals : List JsNumber
  subtotal : JsNumber
  safetyFactorPercent : ℤ
  safetyFactorAmount : JsNumber
  total : JsNumber
deriving DecidableEq

/-- The function `generateQuotationHTML` (script.js 881-1096), as the amounts it formats. -/
def generateQuotationHTML (calculation : Calculation) : QuotationView :=
  let exchangeRate := orRate (some calculation.results.exchangeRate) 1
  let formatCost := fun (amount : JsNumber) => amount * exchangeRate
  { itemTotals :=
      [formatCost (JsNumber.num calculation.results.subtotals.cylinders),
        formatCost (JsNumber.num calculation.results.subtotals.nozzles),
        formatCost (JsNumber.num calculation.results.subtotals.piping),
        formatCost (JsNumber.num calculation.results.subtotals.hoodAgentTank),
        formatCost (JsNumber.num calculation.results.subtotals.manualRelease),
        formatCost (JsNumber.num calculation.results.subtotals.installationLabor),
        formatCost (JsNumber.num calculation.results.subtotals.commissioning)],
    applianceTotals :=
      calculation.configuration.appliances.map (fun a => formatCost (JsNumber.num a.price)),
    subtotal := formatCost (calculation.results.totalCost / 1.1),
    safetyFactorPercent := orInt (some calculation.configuration.system.safetyFactor) 10,
    safetyFactorAmount := formatCost (calculation.results.totalCost * 0.1),
    total := formatCost calculation.results.totalCost }

/-- An item of the appliance list as `initializeAppliances` creates it: its id, nozzle count and
price are those of one catalogue entry. -/
def isStandardItem (item : ApplianceItem) : Bool :=
  standardAppliances.any
    (fun a => decide (item.id = a.id ∧ item.nozzles = a.nozzles ∧ item.price = a.price))

/-- The record that `performCalculation` builds from a state, once validation has passed. -/
def newCalculation (clock : Clock) (st : State) : Calculation :=
  buildCalculation st.expertMode clock (readForm st.form) (selectAppliances st.form.applianceItems)

/-- The subtotals before the safety factor, recomputed from what a record stores. -/
def Calculation.baseSubtotals (r : Calculation) : Subtotals :=
  KFSS.baseSubtotals r.results.nozzles.total r.results.cylinders r.results.pipingLength
    r.configuration.appliances

/-! ## Sample inputs -/

/-- A serializer for the examples: it keeps only the time stamps. -/
def sampleSerializer : Serializer :=
  { stringify := fun c => c.timestamp,
    stringifyList := fun l => String.join (l.map (fun c => c.timestamp)),
    parse := fun _ => none,
    parseList := fun _ => none }

/-- A clock reading for the examples. -/
def sampleClock : Clock :=
  { now := 1700000000000, iso := "2023-11-14T22:13:20.000Z" }

/-- The form of the end-to-end example: hood 3.0 by 1.2, two plenum sections, one duct section,
the catalogue items all unselected, safety factor 10, currency USD. -/
def sampleForm : Form :=
  { projectName := some "Commercial Kitchen Design",
    clientName := some "Restaurant Corporation",
    projectLocation := some "",
    hoodLength := some 3.0,
    hoodDepth := some 1.2,
    plenumSections := some 2,
    ductSections := some 1,
    currency := some "USD",
    hoodMaterial := some "stainless",
    ductLength := some 5.0,
    nozzleType := some "standard",
    pipeMaterial := some "galvanized",
    safetyFactor := some 10,
    pressureRating := some 100,
    additionalNotes := some "",
    customAppliance := "",
    customNozzles := some 1,
    expertModeToggle := true,
    applianceItems :=
      standardAppliances.map
        (fun a => { id := a.id, nozzles := a.nozzles, price := a.price, selected := false }) }

/-- A state for the examples: nothing computed yet, expert mode off, empty storage. -/
def sampleState : State :=
  { currentCalculation := none,
    recentCalculations := [],
    expertMode := false,
    form := sampleForm,
    storage :=
      { kfss_last_calculation := none,
        kfss_recent_calculations := none,
        kfss_expert_mode := none } }

/-- The sample state with six plenum sections (seven nozzles in all). -/
def sevenNozzleState : State :=
  { sampleState with form := { sampleForm with plenumSections := some 6 } }

/-- The sample state with the custom appliance inputs filled in: name "Tandoor", three nozzles. -/
def customInputState : State :=
  { sampleState with
    form := { sampleForm with customAppliance := "Tandoor", customNozzles := some 3 } }

/-- The state after `addCustomAppliance` has run on `customInputState`. -/
def customAddedState : State :=
  (addCustomAppliance 1700000000000 customInputState).1

/-- A second clock reading for the examples, half a second after `sampleClock`. -/
def laterClock : Clock :=
  { now := 1700000000500, iso := "2023-11-14T22:13:20.500Z" }

/-- The sample state with a history of two records (the newer one first), the older one being
also the current calculation and both being persisted. -/
def historyState : State :=
  { sampleState with
    currentCalculation := some (newCalculation sampleClock sampleState),
    recentCalculations :=
      [newCalculation laterClock sampleState, newCalculation sampleClock sampleState],
    storage :=
      { kfss_last_calculation := some "2023-11-14T22:13:20.000Z",
        kfss_recent_calculations := some "2023-11-14T22:13:20.500Z2023-11-14T22:13:20.000Z",
        kfss_expert_mode := none } }

/-- The sample state with the hood length field left empty. -/
def emptyHoodState : State :=
  { sampleState with form := { sampleForm with hoodLength := none } }

/-- The sample state with the project name field holding the empty string. -/
def emptyNameState : State :=
  { sampleState with form := { sampleForm with projectName := some "" } }

/-- A storage whose two record slots hold text that `sampleSerializer` does not parse. -/
def corruptStorage : Storage :=
  { kfss_last_calculation := some "not json",
    kfss_recent_calculations := some "not json",
    kfss_expert_mode := none }

/-- The state that the first run of `performCalculation` on the sample state leaves. -/
def afterFirstRun : State :=
  (performCalculation sampleSerializer sampleClock sampleState).1

/-- The sample state with the plenum sections field reading -3. -/
def negativeSectionsState : State :=
  { sampleState with form := { sampleForm with plenumSections := some (-3) } }

/-- The sample state in expert mode with the duct length field reading -100. -/
def negativeDuctState : State :=
  { sampleState with expertMode := true, form := { sampleForm with ductLength := some (-100) } }

/-- The sample state with both section count fields left empty. -/
def emptySectionsState : State :=
  { sampleState with form := { sampleForm with plenumSections := none, ductSections := none } }

/-- The sample state with the currency field set to EUR. -/
def eurState : State :=
  { sampleState with form := { sampleForm with currency := some "EUR" } }

/-- The sample state with expert mode on (duct length 5.0). -/
def expertSampleState : State :=
  { sampleState with expertMode := true }

/-- The sample state with both section count fields reading 0. -/
def zeroSectionsState : State :=
  { sampleState with
    form := { sampleForm with plenumSections := some 0, ductSections := some 0 } }

/-- The record that the sample form gives when the clock reads `now`. -/
def recordAt (now : ℕ) : Calculation :=
  newCalculation { now := now, iso := "2023-11-14T22:13:20.000Z" } sampleState

/-- The sample state with a full history of five records, the newest (clock value
1700000000005) first and the oldest (clock value 1700000000001) last. -/
def fullHistoryState : State :=
  { sampleState with
    recentCalculations :=
      [recordAt 1700000000005, recordAt 1700000000004, recordAt 1700000000003,
        recordAt 1700000000002, recordAt 1700000000001] }

/-- The sample state with the currency field reading `toString`, a name that the exchange rate
table inherits from `Object.prototype`. -/
def inheritedCurrencyState : State :=
  { sampleState with form := { sampleForm with currency := some "toString" } }

/-- The state `inheritedCurrencyState` with six plenum sections. -/
def inheritedCurrencySevenState : State :=
  { sampleState with
    form := { sampleForm with currency := some "toString", plenumSections := some 6 } }

/-! ## Auxiliary lemmas -/

@[simp]
theorem JsNumber.num_add (a b : ℚ) :
    JsNumber.num a + JsNumber.num b = JsNumber.num (a + b) := rfl

@[simp]
theorem JsNumber.num_mul (a b : ℚ) :
    JsNumber.num a * JsNumber.num b = JsNumber.num (a * b) := rfl

@[simp]
theorem JsNumber.num_div (a b : ℚ) :
    JsNumber.num a / JsNumber.num b = JsNumber.num (a / b) := rfl

@[simp]
theorem JsNumber.num_le (a b : ℚ) : JsNumber.num a ≤ JsNumber.num b ↔ a ≤ b := Iff.rfl

@[simp]
theorem JsNumber.mul_notNumber (x : JsNumber) : x * JsNumber.notNumber = JsNumber.notNumber := by
  cases x <;> rfl

@[simp]
theorem JsNumber.notNumber_mul (x : JsNumber) : JsNumber.notNumber * x = JsNumber.notNumber := rfl

@[simp]
theorem JsNumber.add_notNumber (x : JsNumber) : x + JsNumber.notNumber = JsNumber.notNumber := by
  cases x <;> rfl

@[simp]
theorem JsNumber.notNumber_add (x : JsNumber) : JsNumber.notNumber + x = JsNumber.notNumber := rfl

@[simp]
theorem JsNumber.not_notNumber_le (x : JsNumber) : ¬ JsNumber.notNumber ≤ x :=
  fun h => h

@[simp]
theorem JsNumber.ofNat_eq (n : ℕ) [OfNat ℚ n] :
    (no_index (OfNat.ofNat n) : JsNumber) = JsNumber.num (OfNat.ofNat n) := rfl

@[simp]
theorem JsNumber.ofScientific_eq (m : ℕ) (s : Bool) (e : ℕ) :
    (OfScientific.ofScientific m s e : JsNumber) =
      JsNumber.num (OfScientific.ofScientific m s e) := rfl

@[simp]
theorem JsNumber.zero_eq : (0 : JsNumber) = JsNumber.num 0 := rfl

theorem orRate_num (q : ℚ) (d : JsNumber) (hq : q ≠ 0) :
    orRate (some (JsNumber.num q)) d = JsNumber.num q := by
  simp [orRate, hq]

theorem exchangeRateFor_usd : exchangeRateFor "USD" = JsNumber.num 1 := by
  have h : exchangeRates "USD" = some (JsNumber.num 1) := by
    simp [exchangeRates]
    norm_num
  rw [exchangeRateFor, h]
  exact orRate_num 1 _ (by norm_num)

theorem exchangeRateFor_eur : exchangeRateFor "EUR" = JsNumber.num 0.92 := by
  have h : exchangeRates "EUR" = some (JsNumber.num 0.92) := by
    simp [exchangeRates]
  rw [exchangeRateFor, h]
  exact orRate_num 0.92 _ (by norm_num)

theorem foldl_add_nozzles (l : List Appliance) (z : ℤ) :
    l.foldl (fun sum app => sum + app.nozzles) z = z + (l.map Appliance.nozzles).sum := by
  induction l generalizing z with
  | nil => simp
  | cons a t ih => simp [ih, add_assoc]

theorem foldl_add_prices (l : List Appliance) (z : ℚ) :
    l.foldl (fun sum app => sum + app.price) z = z + (l.map Appliance.price).sum := by
  induction l generalizing z with
  | nil => simp
  | cons a t ih => simp [ih, add_assoc]

theorem sumNozzles_eq (l : List Appliance) : sumNozzles l = (l.map Appliance.nozzles).sum := by
  simp [sumNozzles, foldl_add_nozzles]

theorem sumPrices_eq (l : List Appliance) : sumPrices l = (l.map Appliance.price).sum := by
  simp [sumPrices, foldl_add_prices]

theorem ceilDiv6_eq (n : ℤ) : ceilDiv6 n = (n + 5) / 6 := by
  unfold ceilDiv6
  rw [Int.ceil_eq_iff]
  have h1 : 6 * ((n + 5) / 6) - 6 < n := by omega
  have h2 : n ≤ 6 * ((n + 5) / 6) := by omega
  have h1q : (6 : ℚ) * (((n + 5) / 6 : ℤ) : ℚ) - 6 < (n : ℚ) := by exact_mod_cast h1
  have h2q : (n : ℚ) ≤ 6 * (((n + 5) / 6 : ℤ) : ℚ) := by exact_mod_cast h2
  constructor
  · rw [lt_div_iff₀ (by norm_num : (0 : ℚ) < 6)]
    linarith
  · rw [div_le_iff₀ (by norm_num : (0 : ℚ) < 6)]
    linarith

theorem total_values (s : Subtotals) :
    s.total = s.nozzles + s.cylinders + s.piping + s.hoodAgentTank + s.manualRelease +
      s.installationLabor + s.commissioning + s.appliances := by
  simp [Subtotals.total, Subtotals.values]

theorem performCalculation_of_redirect {ser : Serializer} {clock : Clock} {st : State}
    {href : String} (h : (performCalculation ser clock st).2 = Outcome.redirect href) :
    performCalculation ser clock st =
      (addToRecentCalculations ser (newCalculation clock st)
        { st with
          currentCalculation := some (newCalculation clock st),
          storage :=
            { st.storage with
              kfss_last_calculation := some (ser.stringify (newCalculation clock st)) } },
        Outcome.redirect "results.html") := by
  unfold performCalculation at h ⊢
  simp only at h ⊢
  split_ifs at h ⊢
  rfl

theorem redirect_of_valid (ser : Serializer) (clock : Clock) {st : State}
    (h1 : jsTrim (readForm st.form).projectName ≠ "")
    (h2 : jsTrim (readForm st.form).clientName ≠ "")
    (h3 : 0 < (readForm st.form).hoodLength) (h4 : 0 < (readForm st.form).hoodDepth) :
    (performCalculation ser clock st).2 = Outcome.redirect "results.html" := by
  unfold performCalculation
  simp only
  rw [if_neg (by simp [h1, h2]), if_neg (by simp [h3, h4])]

theorem valid_of_redirect {ser : Serializer} {clock : Clock} {st : State} {href : String}
    (h : (performCalculation ser clock st).2 = Outcome.redirect href) :
    (jsTrim (readForm st.form).projectName ≠ "" ∧ jsTrim (readForm st.form).clientName ≠ "") ∧
      0 < (readForm st.form).hoodLength ∧ 0 < (readForm st.form).hoodDepth := by
  unfold performCalculation at h
  simp only at h
  split_ifs at h with h1 h2
  exact ⟨by simpa using h1, by simpa using h2⟩

theorem selectAppliances_none_selected (items : List ApplianceItem)
    (h : ∀ item ∈ items, item.selected = false) : selectAppliances items = [] := by
  have hf : items.filter (fun item => item.selected) = [] := by
    rw [List.filter_eq_nil_iff]
    intro a ha
    simp [h a ha]
  simp [selectAppliances, hf]

theorem current_of_redirect {ser : Serializer} {clock : Clock} {st : State}
    {href : String} (h : (performCalculation ser clock st).2 = Outcome.redirect href) :
    (performCalculation ser clock st).1.currentCalculation = some (newCalculation clock st) := by
  rw [performCalculation_of_redirect h]
  rfl

theorem sample_redirect :
    (performCalculation sampleSerializer sampleClock sampleState).2 =
      Outcome.redirect "results.html" :=
  redirect_of_valid sampleSerializer sampleClock (by decide) (by decide)
    (by norm_num [sampleState, sampleForm, readForm, orNum])
    (by norm_num [sampleState, sampleForm, readForm, orNum])

theorem seven_redirect :
    (performCalculation sampleSerializer sampleClock sevenNozzleState).2 =
      Outcome.redirect "results.html" :=
  redirect_of_valid sampleSerializer sampleClock (by decide) (by decide)
    (by norm_num [sevenNozzleState, sampleState, sampleForm, readForm, orNum])
    (by norm_num [sevenNozzleState, sampleState, sampleForm, readForm, orNum])

theorem sample_selected : selectAppliances sampleState.form.applianceItems = [] := by
  decide

/-! ## The nozzle count and the cylinders -/

/-- C1: in every run of `performCalculation` that passes validation, the stored record echoes the
section counts `p`, `d` read from the form and the appliance list `A` that enters the calculation,
and stores `nozzles.plenum = p`, `nozzles.duct = d`, `nozzles.appliances` = the sum of the nozzle
counts of `A`, and `nozzles.total = p + d +` that sum. -/
theorem nozzles_total_eq (ser : Serializer) (clock : Clock) (st : State)
    (h : (performCalculation ser clock st).2 = Outcome.redirect "results.html") :
    ∃ r, (performCalculation ser clock st).1.currentCalculation = some r ∧
      r.configuration.hood.plenumSections = orInt st.form.plenumSections 0 ∧
      r.configuration.hood.ductSections = orInt st.form.ductSections 0 ∧
      r.configuration.appliances = selectAppliances st.form.applianceItems ∧
      r.results.nozzles.plenum = r.configuration.hood.plenumSections ∧
      r.results.nozzles.duct = r.configuration.hood.ductSections ∧
      r.results.nozzles.appliances = (r.configuration.appliances.map Appliance.nozzles).sum ∧
      r.results.nozzles.total =
        r.configuration.hood.plenumSections + r.configuration.hood.ductSections +
          (r.configuration.appliances.map Appliance.nozzles).sum := by
  refine ⟨newCalculation clock st, current_of_redirect h, ?_⟩
  simp [newCalculation, buildCalculation, readForm, sumNozzles_eq]

/-- The theorem `nozzles_total_eq` at the sample state: two plenum nozzles, one duct nozzle, no
appliance nozzle, three in all. -/
theorem nozzles_total_eq_witness :
    (performCalculation sampleSerializer sampleClock sampleState).2 =
        Outcome.redirect "results.html" ∧
      ∃ r, (performCalculation sampleSerializer sampleClock sampleState).1.currentCalculation =
          some r ∧
        r.results.nozzles.plenum = 2 ∧ r.results.nozzles.duct = 1 ∧
        r.results.nozzles.appliances = 0 ∧ r.results.nozzles.total = 3 := by
  refine ⟨sample_redirect, ?_⟩
  obtain ⟨r, hr, hp, hd, ha, h1, h2, h3, h4⟩ :=
    nozzles_total_eq sampleSerializer sampleClock sampleState sample_redirect
  rw [sample_selected] at ha
  have hp2 : r.configuration.hood.plenumSections = 2 := by rw [hp]; decide
  have hd1 : r.configuration.hood.ductSections = 1 := by rw [hd]; decide
  refine ⟨r, hr, ?_, ?_, ?_, ?_⟩
  · rw [h1, hp2]
  · rw [h2, hd1]
  · rw [h3, ha]; rfl
  · rw [h4, hp2, hd1, ha]; rfl

/-- C2: in every run of `performCalculation` that passes validation, the stored cylinder count is
`ceil(n / 6)` for the stored total nozzle count `n`; when `n >= 0` it is the least natural number
`c` with `6 * c >= n`; `n = 6` gives 1 cylinder and `n = 7` gives 2. -/
theorem cylinders_eq_ceil (ser : Serializer) (clock : Clock) (st : State)
    (h : (performCalculation ser clock st).2 = Outcome.redirect "results.html") :
    ∃ r, (performCalculation ser clock st).1.currentCalculation = some r ∧
      r.results.cylinders = ⌈(r.results.nozzles.total : ℚ) / 6⌉ ∧
      (0 ≤ r.results.nozzles.total →
        0 ≤ r.results.cylinders ∧ r.results.nozzles.total ≤ 6 * r.results.cylinders ∧
          ∀ c : ℕ, r.results.nozzles.total ≤ 6 * (c : ℤ) → r.results.cylinders ≤ (c : ℤ)) ∧
      (r.results.nozzles.total = 6 → r.results.cylinders = 1) ∧
      (r.results.nozzles.total = 7 → r.results.cylinders = 2) := by
  refine ⟨newCalculation clock st, current_of_redirect h, rfl, ?_, ?_, ?_⟩
  · intro h0
    have hc : (newCalculation clock st).results.cylinders =
        ((newCalculation clock st).results.nozzles.total + 5) / 6 := ceilDiv6_eq _
    rw [hc]
    refine ⟨by omega, by omega, ?_⟩
    intro c hle
    omega
  · intro h6
    have hc : (newCalculation clock st).results.cylinders =
        ((newCalculation clock st).results.nozzles.total + 5) / 6 := ceilDiv6_eq _
    rw [hc, h6]
    rfl
  · intro h7
    have hc : (newCalculation clock st).results.cylinders =
        ((newCalculation clock st).results.nozzles.total + 5) / 6 := ceilDiv6_eq _
    rw [hc, h7]
    rfl

/-- The theorem `cylinders_eq_ceil` at the sample state with six plenum sections: seven nozzles
need two cylinders. -/
theorem cylinders_eq_ceil_witness :
    (performCalculation sampleSerializer sampleClock sevenNozzleState).2 =
        Outcome.redirect "results.html" ∧
      ∃ r, (performCalculation sampleSerializer sampleClock sevenNozzleState).1.currentCalculation =
          some r ∧
        r.results.nozzles.total = 7 ∧ r.results.cylinders = 2 := by
  refine ⟨seven_redirect, ?_⟩
  obtain ⟨r, hr, -, -, -, h7⟩ :=
    cylinders_eq_ceil sampleSerializer sampleClock sevenNozzleState seven_redirect
  have hn : r.results.nozzles.total = 7 := by
    have hcur := current_of_redirect seven_redirect
    rw [hr] at hcur
    rw [Option.some.inj hcur]
    have hs : selectAppliances sevenNozzleState.form.applianceItems = [] := by decide
    simp only [newCalculation, buildCalculation, hs]
    decide
  exact ⟨r, hr, hn, h7 hn⟩

/-! ## The subtotals and the safety factor -/

/-- C3: in every run of `performCalculation` that passes validation, the stored cylinders subtotal
is the base cylinders subtotal times the safety multiplier, and the base subtotal is 1200 when one
cylinder is required and 1900 times the cylinder count when more than one is required (3800 for
two cylinders). -/
theorem cylinders_base_price (ser : Serializer) (clock : Clock) (st : State)
    (h : (performCalculation ser clock st).2 = Outcome.redirect "results.html") :
    ∃ r, (performCalculation ser clock st).1.currentCalculation = some r ∧
      r.results.subtotals.cylinders =
        r.baseSubtotals.cylinders * (1 + (r.configuration.system.safetyFactor : ℚ) / 100) ∧
      (r.results.cylinders = 1 → r.baseSubtotals.cylinders = 1200) ∧
      (1 < r.results.cylinders →
        r.baseSubtotals.cylinders = 1900 * (r.results.cylinders : ℚ)) ∧
      (r.results.cylinders = 2 → r.baseSubtotals.cylinders = 3800) := by
  refine ⟨newCalculation clock st, current_of_redirect h, rfl, ?_, ?_, ?_⟩
  · intro h1
    simp [Calculation.baseSubtotals, baseSubtotals, pricing, h1]
  · intro h1
    simp [Calculation.baseSubtotals, baseSubtotals, pricing, h1, mul_comm]
  · intro h2
    simp [Calculation.baseSubtotals, baseSubtotals, pricing, h2]
    norm_num

/-- The theorem `cylinders_base_price` at the sample state with six plenum sections: two cylinders
at the 10 kg price, 3800 before and 4180 after the safety factor of 10 percent. -/
theorem cylinders_base_price_witness :
    (performCalculation sampleSerializer sampleClock sevenNozzleState).2 =
        Outcome.redirect "results.html" ∧
      ∃ r, (performCalculation sampleSerializer sampleClock sevenNozzleState).1.currentCalculation =
          some r ∧
        r.results.cylinders = 2 ∧ r.baseSubtotals.cylinders = 3800 ∧
        r.results.subtotals.cylinders = 4180 := by
  refine ⟨seven_redirect, ?_⟩
  obtain ⟨r, hr, hs, -, -, h2⟩ :=
    cylinders_base_price sampleSerializer sampleClock sevenNozzleState seven_redirect
  have hcur := current_of_redirect seven_redirect
  rw [hr] at hcur
  have hsel : selectAppliances sevenNozzleState.form.applianceItems = [] := by decide
  have hc : r.results.cylinders = 2 := by
    rw [Option.some.inj hcur]
    simp only [newCalculation, buildCalculation, hsel, ceilDiv6_eq]
    decide
  have hf : r.configuration.system.safetyFactor = 10 := by
    rw [Option.some.inj hcur]
    decide
  refine ⟨r, hr, hc, h2 hc, ?_⟩
  rw [hs, h2 hc, hf]
  norm_num

/-- C4: in every run of `performCalculation` that passes validation, with `s` the safety factor
used, each of the eight stored subtotals is its base amount times `1 + s / 100`, and the total
before the currency conversion is the sum of the eight stored subtotals. -/
theorem safety_factor_uniform (ser : Serializer) (clock : Clock) (st : State)
    (h : (performCalculation ser clock st).2 = Outcome.redirect "results.html") :
    ∃ r, (performCalculation ser clock st).1.currentCalculation = some r ∧
      r.configuration.system.safetyFactor = orInt st.form.safetyFactor 10 ∧
      r.results.subtotals.nozzles =
        ((r.results.nozzles.total : ℚ) * 85) *
          (1 + (r.configuration.system.safetyFactor : ℚ) / 100) ∧
      r.results.subtotals.cylinders =
        ((r.results.cylinders : ℚ) * (if r.results.cylinders > 1 then 1900 else 1200)) *
          (1 + (r.configuration.system.safetyFactor : ℚ) / 100) ∧
      r.results.subtotals.piping =
        (r.results.pipingLength * 35) * (1 + (r.configuration.system.safetyFactor : ℚ) / 100) ∧
      r.results.subtotals.hoodAgentTank =
        1800 * (1 + (r.configuration.system.safetyFactor : ℚ) / 100) ∧
      r.results.subtotals.manualRelease =
        250 * (1 + (r.configuration.system.safetyFactor : ℚ) / 100) ∧
      r.results.subtotals.installationLabor =
        850 * (1 + (r.configuration.system.safetyFactor : ℚ) / 100) ∧
      r.results.subtotals.commissioning =
        400 * (1 + (r.configuration.system.safetyFactor : ℚ) / 100) ∧
      r.results.subtotals.appliances =
        (r.configuration.appliances.map Appliance.price).sum *
          (1 + (r.configuration.system.safetyFactor : ℚ) / 100) ∧
      r.results.subtotals.total =
        r.results.subtotals.nozzles + r.results.subtotals.cylinders + r.results.subtotals.piping +
          r.results.subtotals.hoodAgentTank + r.results.subtotals.manualRelease +
          r.results.subtotals.installationLabor + r.results.subtotals.commissioning +
          r.results.subtotals.appliances ∧
      r.results.totalCost = r.results.subtotals.total * r.results.exchangeRate := by
  refine ⟨newCalculation clock st, current_of_redirect h, rfl, rfl, rfl, rfl, rfl, rfl, rfl, rfl,
    ?_, total_values _, rfl⟩
  simp [newCalculation, buildCalculation, scaledSubtotals, baseSubtotals, Subtotals.scale,
    sumPrices_eq]

/-- The theorem `safety_factor_uniform` at the sample state: with a safety factor of 10 percent
the fixed hood and agent tank amount 1800 is stored as 1980 and the nozzles amount 255 as 280.5. -/
theorem safety_factor_uniform_witness :
    (performCalculation sampleSerializer sampleClock sampleState).2 =
        Outcome.redirect "results.html" ∧
      ∃ r, (performCalculation sampleSerializer sampleClock sampleState).1.currentCalculation =
          some r ∧
        r.configuration.system.safetyFactor = 10 ∧
        r.results.subtotals.hoodAgentTank = 1980 ∧
        r.results.subtotals.nozzles = 280.5 := by
  refine ⟨sample_redirect, ?_⟩
  obtain ⟨r, hr, hs, hn, -, -, ht, -⟩ :=
    safety_factor_uniform sampleSerializer sampleClock sampleState sample_redirect
  have hf : r.configuration.system.safetyFactor = 10 := by rw [hs]; decide
  have hcur := current_of_redirect sample_redirect
  rw [hr] at hcur
  have hn3 : r.results.nozzles.total = 3 := by
    rw [Option.some.inj hcur]
    simp only [newCalculation, buildCalculation, sample_selected]
    decide
  refine ⟨r, hr, hf, ?_, ?_⟩
  · rw [ht, hf]; norm_num
  · rw [hn, hf, hn3]; norm_num

/-! ## Piping length, currency conversion and the end-to-end example -/

/-- C5: in every run of `performCalculation` that passes validation, the stored piping length is
`2 * totalNozzles + 5 + ductLength` when expert mode is active and `2 * totalNozzles + 5` when it
is not; with expert mode off, replacing the duct length field by any other value leaves the stored
piping length, every stored subtotal and the total cost unchanged. -/
theorem piping_length_eq (ser : Serializer) (clock : Clock) (st : State)
    (h : (performCalculation ser clock st).2 = Outcome.redirect "results.html") :
    ∃ r, (performCalculation ser clock st).1.currentCalculation = some r ∧
      r.configuration.hood.ductLength = orNum st.form.ductLength 5.0 ∧
      (st.expertMode = true →
        r.results.pipingLength =
          2 * (r.results.nozzles.total : ℚ) + 5 + r.configuration.hood.ductLength) ∧
      (st.expertMode = false →
        r.results.pipingLength = 2 * (r.results.nozzles.total : ℚ) + 5 ∧
        ∀ d : Option ℚ, ∃ r2,
          (performCalculation ser clock
            { st with form := { st.form with ductLength := d } }).1.currentCalculation = some r2 ∧
          r2.results.pipingLength = r.results.pipingLength ∧
          r2.results.subtotals = r.results.subtotals ∧
          r2.results.totalCost = r.results.totalCost) := by
  refine ⟨newCalculation clock st, current_of_redirect h, rfl, ?_, ?_⟩
  · intro he
    simp [newCalculation, buildCalculation, he, mul_comm]
  · intro he
    refine ⟨by simp [newCalculation, buildCalculation, he, mul_comm], ?_⟩
    intro d
    obtain ⟨⟨v1, v2⟩, v3, v4⟩ := valid_of_redirect h
    have h2 : (performCalculation ser clock
        { st with form := { st.form with ductLength := d } }).2 =
          Outcome.redirect "results.html" :=
      redirect_of_valid ser clock v1 v2 v3 v4
    refine ⟨_, current_of_redirect h2, ?_, ?_, ?_⟩ <;>
      simp [newCalculation, buildCalculation, scaledSubtotals, readForm, he]

/-- The theorem `piping_length_eq` at the sample state (expert mode off, three nozzles): the
piping length is 11 and stays 11 when the duct length field reads 40. -/
theorem piping_length_eq_witness :
    (performCalculation sampleSerializer sampleClock sampleState).2 =
        Outcome.redirect "results.html" ∧
      ∃ r r2, (performCalculation sampleSerializer sampleClock sampleState).1.currentCalculation =
          some r ∧
        (performCalculation sampleSerializer sampleClock
          { sampleState with
            form := { sampleState.form with ductLength := some 40 } }).1.currentCalculation =
          some r2 ∧
        r.results.pipingLength = 11 ∧ r2.results.pipingLength = 11 ∧
        r2.results.totalCost = r.results.totalCost := by
  refine ⟨sample_redirect, ?_⟩
  obtain ⟨r, hr, -, -, hoff⟩ :=
    piping_length_eq sampleSerializer sampleClock sampleState sample_redirect
  obtain ⟨hp, hd⟩ := hoff rfl
  obtain ⟨r2, hr2, hp2, -, ht2⟩ := hd (some 40)
  have hcur := current_of_redirect sample_redirect
  rw [hr] at hcur
  have hn3 : r.results.nozzles.total = 3 := by
    rw [Option.some.inj hcur]
    simp only [newCalculation, buildCalculation, sample_selected]
    decide
  have h11 : r.results.pipingLength = 11 := by rw [hp, hn3]; norm_num
  exact ⟨r, r2, hr, hr2, h11, by rw [hp2, h11], ht2⟩

/-- C6: in every run of `performCalculation` that passes validation, the stored total cost is the
stored exchange rate times the sum of the stored subtotals, which is the sum of the stored
subtotals each times the exchange rate; the rate is 1.0 for USD, 0.92 for EUR, 83.0 for INR and
3.67 for AED; and a run that differs only in the currency field stores the same subtotals. -/
theorem total_cost_exchange (ser : Serializer) (clock : Clock) (st : State)
    (h : (performCalculation ser clock st).2 = Outcome.redirect "results.html") :
    ∃ r, (performCalculation ser clock st).1.currentCalculation = some r ∧
      r.results.totalCost =
        r.results.exchangeRate *
          (r.results.subtotals.nozzles + r.results.subtotals.cylinders +
            r.results.subtotals.piping + r.results.subtotals.hoodAgentTank +
            r.results.subtotals.manualRelease + r.results.subtotals.installationLabor +
            r.results.subtotals.commissioning + r.results.subtotals.appliances) ∧
      r.results.totalCost =
        r.results.subtotals.nozzles * r.results.exchangeRate +
          r.results.subtotals.cylinders * r.results.exchangeRate +
          r.results.subtotals.piping * r.results.exchangeRate +
          r.results.subtotals.hoodAgentTank * r.results.exchangeRate +
          r.results.subtotals.manualRelease * r.results.exchangeRate +
          r.results.subtotals.installationLabor * r.results.exchangeRate +
          r.results.subtotals.commissioning * r.results.exchangeRate +
          r.results.subtotals.appliances * r.results.exchangeRate ∧
      r.project.currency = orStr st.form.currency "USD" ∧
      (r.project.currency = "USD" → r.results.exchangeRate = 1.0) ∧
      (r.project.currency = "EUR" → r.results.exchangeRate = 0.92) ∧
      (r.project.currency = "INR" → r.results.exchangeRate = 83.0) ∧
      (r.project.currency = "AED" → r.results.exchangeRate = 3.67) ∧
      ∀ c : Option String, ∃ r2,
        (performCalculation ser clock
          { st with form := { st.form with currency := c } }).1.currentCalculation = some r2 ∧
        r2.results.subtotals = r.results.subtotals := by
  have ht : (newCalculation clock st).results.totalCost =
      (newCalculation clock st).results.subtotals.total *
        (newCalculation clock st).results.exchangeRate := rfl
  have hrate : ∀ (c : String) (q : ℚ), exchangeRates c = some (JsNumber.num q) → q ≠ 0 →
      (newCalculation clock st).project.currency = c →
      (newCalculation clock st).results.exchangeRate = JsNumber.num q := by
    intro c q hq hq0 hc
    have hx : (newCalculation clock st).results.exchangeRate =
        exchangeRateFor (newCalculation clock st).project.currency := rfl
    rw [hx, hc, exchangeRateFor, hq]
    simp [orRate, hq0]
  refine ⟨newCalculation clock st, current_of_redirect h, ?_, ?_, rfl, ?_, ?_, ?_, ?_, ?_⟩
  · rw [ht, total_values]
    cases (newCalculation clock st).results.exchangeRate with
    | num q =>
      simp only [JsNumber.num_add, JsNumber.num_mul, JsNumber.num.injEq]
      ring
    | notNumber => simp
  · rw [ht, total_values]
    cases (newCalculation clock st).results.exchangeRate with
    | num q =>
      simp only [JsNumber.num_add, JsNumber.num_mul, JsNumber.num.injEq]
      ring
    | notNumber => simp
  · exact hrate "USD" 1.0 (by simp [exchangeRates]) (by norm_num)
  · exact hrate "EUR" 0.92 (by simp [exchangeRates]) (by norm_num)
  · exact hrate "INR" 83.0 (by simp [exchangeRates]) (by norm_num)
  · exact hrate "AED" 3.67 (by simp [exchangeRates]) (by norm_num)
  · intro c
    obtain ⟨⟨v1, v2⟩, v3, v4⟩ := valid_of_redirect h
    have h2 : (performCalculation ser clock
        { st with form := { st.form with currency := c } }).2 =
          Outcome.redirect "results.html" :=
      redirect_of_valid ser clock v1 v2 v3 v4
    refine ⟨_, current_of_redirect h2, ?_⟩
    simp [newCalculation, buildCalculation, scaledSubtotals, readForm]

/-- The theorem `total_cost_exchange` at the sample state: the rate for USD is 1.0, and the run
with the currency field set to EUR stores the rate 0.92 and the same subtotals. -/
theorem total_cost_exchange_witness :
    (performCalculation sampleSerializer sampleClock sampleState).2 =
        Outcome.redirect "results.html" ∧
      ∃ r r2, (performCalculation sampleSerializer sampleClock sampleState).1.currentCalculation =
          some r ∧
        (performCalculation sampleSerializer sampleClock
          { sampleState with
            form := { sampleState.form with currency := some "EUR" } }).1.currentCalculation =
          some r2 ∧
        r.results.exchangeRate = 1.0 ∧ r2.results.subtotals = r.results.subtotals := by
  refine ⟨sample_redirect, ?_⟩
  obtain ⟨r, hr, -, -, hc, husd, -, -, -, hsame⟩ :=
    total_cost_exchange sampleSerializer sampleClock sampleState sample_redirect
  obtain ⟨r2, hr2, hs2⟩ := hsame (some "EUR")
  have hcur : r.project.currency = "USD" := by rw [hc]; decide
  exact ⟨r, r2, hr, hr2, husd hcur, hs2⟩

/-- C7: the end-to-end example. For a form with hood length 3.0, hood depth 1.2, two plenum
sections, one duct section, no appliance selected, safety factor 10 and currency USD, with expert
mode off, a run of `performCalculation` that passes validation stores 3 nozzles, 1 cylinder, agent
weight 5.7, piping length 11, the subtotals 280.5, 1320, 423.5, 1980, 275, 935, 440 and 0, and the
total cost 5654. -/
theorem end_to_end_example (ser : Serializer) (clock : Clock) (st : State)
    (hl : st.form.hoodLength = some 3.0) (hd : st.form.hoodDepth = some 1.2)
    (hp : st.form.plenumSections = some 2) (hds : st.form.ductSections = some 1)
    (ha : ∀ item ∈ st.form.applianceItems, item.selected = false)
    (hs : st.form.safetyFactor = some 10) (hc : st.form.currency = some "USD")
    (he : st.expertMode = false)
    (h : (performCalculation ser clock st).2 = Outcome.redirect "results.html") :
    ∃ r, (performCalculation ser clock st).1.currentCalculation = some r ∧
      r.configuration.hood.length = 3.0 ∧
      r.configuration.hood.depth = 1.2 ∧
      r.results.nozzles.total = 3 ∧
      r.results.cylinders = 1 ∧
      r.results.agentWeight = 5.7 ∧
      r.results.pipingLength = 11 ∧
      r.results.subtotals.nozzles = 280.5 ∧
      r.results.subtotals.cylinders = 1320 ∧
      r.results.subtotals.piping = 423.5 ∧
      r.results.subtotals.hoodAgentTank = 1980 ∧
      r.results.subtotals.manualRelease = 275 ∧
      r.results.subtotals.installationLabor = 935 ∧
      r.results.subtotals.commissioning = 440 ∧
      r.results.subtotals.appliances = 0 ∧
      r.results.totalCost = 5654 := by
  have hsel := selectAppliances_none_selected _ ha
  have hn : (newCalculation clock st).results.nozzles.total = 3 := by
    simp [newCalculation, buildCalculation, readForm, hp, hds, hsel, orInt, sumNozzles]
  have hcyl : (newCalculation clock st).results.cylinders = 1 := by
    have hx : (newCalculation clock st).results.cylinders =
        ceilDiv6 (newCalculation clock st).results.nozzles.total := rfl
    rw [hx, hn, ceilDiv6_eq]
    rfl
  have hw : (newCalculation clock st).results.agentWeight =
      ((newCalculation clock st).results.cylinders : ℚ) * 5.7 := rfl
  have hpipe : (newCalculation clock st).results.pipingLength =
      ((newCalculation clock st).results.nozzles.total : ℚ) * 2 + 5 +
        (if st.expertMode then (readForm st.form).ductLength else 0) := rfl
  have hsf : (newCalculation clock st).configuration.system.safetyFactor = 10 := by
    simp [newCalculation, buildCalculation, readForm, hs, orInt]
  have hrate : (newCalculation clock st).results.exchangeRate = JsNumber.num 1 := by
    have hx : (newCalculation clock st).results.exchangeRate =
        exchangeRateFor (readForm st.form).currency := rfl
    have hcur : (readForm st.form).currency = "USD" := by
      simp [readForm, hc, orStr]
    rw [hx, hcur, exchangeRateFor_usd]
  have hp11 : (newCalculation clock st).results.pipingLength = 11 := by
    rw [hpipe, hn, he]; norm_num
  have happ : (newCalculation clock st).configuration.appliances = [] := hsel
  have hr := current_of_redirect h
  have h1 : (newCalculation clock st).results.subtotals.nozzles =
      ((newCalculation clock st).results.nozzles.total : ℚ) * 85 *
        (1 + ((newCalculation clock st).configuration.system.safetyFactor : ℚ) / 100) := rfl
  have h2 : (newCalculation clock st).results.subtotals.cylinders =
      ((newCalculation clock st).results.cylinders : ℚ) *
        (if (newCalculation clock st).results.cylinders > 1 then 1900 else 1200) *
        (1 + ((newCalculation clock st).configuration.system.safetyFactor : ℚ) / 100) := rfl
  have h3 : (newCalculation clock st).results.subtotals.piping =
      (newCalculation clock st).results.pipingLength * 35 *
        (1 + ((newCalculation clock st).configuration.system.safetyFactor : ℚ) / 100) := rfl
  have h4 : (newCalculation clock st).results.subtotals.hoodAgentTank =
      1800 * (1 + ((newCalculation clock st).configuration.system.safetyFactor : ℚ) / 100) := rfl
  have h5 : (newCalculation clock st).results.subtotals.manualRelease =
      250 * (1 + ((newCalculation clock st).configuration.system.safetyFactor : ℚ) / 100) := rfl
  have h6 : (newCalculation clock st).results.subtotals.installationLabor =
      850 * (1 + ((newCalculation clock st).configuration.system.safetyFactor : ℚ) / 100) := rfl
  have h7 : (newCalculation clock st).results.subtotals.commissioning =
      400 * (1 + ((newCalculation clock st).configuration.system.safetyFactor : ℚ) / 100) := rfl
  have h8 : (newCalculation clock st).results.subtotals.appliances =
      sumPrices (newCalculation clock st).configuration.appliances *
        (1 + ((newCalculation clock st).configuration.system.safetyFactor : ℚ) / 100) := rfl
  have h10 : (newCalculation clock st).results.totalCost =
      (newCalculation clock st).results.subtotals.total *
        (newCalculation clock st).results.exchangeRate := rfl
  rw [hsf] at h1 h2 h3 h4 h5 h6 h7 h8
  rw [hn] at h1
  rw [hcyl] at h2
  rw [hp11] at h3
  rw [happ] at h8
  have e1 : (newCalculation clock st).results.subtotals.nozzles = 280.5 := by
    rw [h1]; norm_num
  have e2 : (newCalculation clock st).results.subtotals.cylinders = 1320 := by
    rw [h2]; norm_num
  have e3 : (newCalculation clock st).results.subtotals.piping = 423.5 := by
    rw [h3]; norm_num
  have e4 : (newCalculation clock st).results.subtotals.hoodAgentTank = 1980 := by
    rw [h4]; norm_num
  have e5 : (newCalculation clock st).results.subtotals.manualRelease = 275 := by
    rw [h5]; norm_num
  have e6 : (newCalculation clock st).results.subtotals.installationLabor = 935 := by
    rw [h6]; norm_num
  have e7 : (newCalculation clock st).results.subtotals.commissioning = 440 := by
    rw [h7]; norm_num
  have e8 : (newCalculation clock st).results.subtotals.appliances = 0 := by
    rw [h8]; simp [sumPrices]
  refine ⟨_, hr, ?_, ?_, hn, hcyl, ?_, hp11, e1, e2, e3, e4, e5, e6, e7, e8, ?_⟩
  · simp [newCalculation, buildCalculation, readForm, hl, orNum]
    norm_num
  · simp [newCalculation, buildCalculation, readForm, hd, orNum]
    norm_num
  · rw [hw, hcyl]; norm_num
  · rw [h10, total_values, e1, e2, e3, e4, e5, e6, e7, e8, hrate]
    show JsNumber.num _ = JsNumber.num 5654
    rw [JsNumber.num.injEq]
    norm_num

/-- The theorem `end_to_end_example` at the sample state. -/
theorem end_to_end_example_witness :
    ∃ r, (performCalculation sampleSerializer sampleClock sampleState).1.currentCalculation =
        some r ∧
      r.configuration.hood.length = 3.0 ∧
      r.configuration.hood.depth = 1.2 ∧
      r.results.nozzles.total = 3 ∧
      r.results.cylinders = 1 ∧
      r.results.agentWeight = 5.7 ∧
      r.results.pipingLength = 11 ∧
      r.results.subtotals.nozzles = 280.5 ∧
      r.results.subtotals.cylinders = 1320 ∧
      r.results.subtotals.piping = 423.5 ∧
      r.results.subtotals.hoodAgentTank = 1980 ∧
      r.results.subtotals.manualRelease = 275 ∧
      r.results.subtotals.installationLabor = 935 ∧
      r.results.subtotals.commissioning = 440 ∧
      r.results.subtotals.appliances = 0 ∧
      r.results.totalCost = 5654 :=
  end_to_end_example sampleSerializer sampleClock sampleState rfl rfl rfl rfl (by decide) rfl rfl
    rfl sample_redirect

/-! ## Custom appliances in the full calculation -/

theorem customAddedState_eq :
    customAddedState =
      { sampleState with
        form :=
          { sampleForm with
            applianceItems :=
              sampleForm.applianceItems ++
                [{ id := "custom-1700000000000", nozzles := 3, price := 1800, selected := true }],
            customAppliance := "",
            customNozzles := some 1 } } := by
  have hname : jsTrim customInputState.form.customAppliance ≠ "" := by decide
  have hcount : orInt customInputState.form.customNozzles 1 = 3 := by decide
  have hid : "custom-" ++ toString 1700000000000 = "custom-1700000000000" := by decide
  unfold customAddedState addCustomAppliance
  simp only [hname, hcount, hid]
  norm_num [customInputState, sampleState]

/-- C8, at a failing input: after `addCustomAppliance` has added the selected custom appliance
"Tandoor" with three nozzles (price 1800) to the sample page, the preview counts its three nozzles
while the record stored by `performCalculation` has an empty appliance list, zero appliance
nozzles and a zero appliances subtotal. -/
theorem custom_appliance_dropped :
    customAddedState.form.applianceItems =
        sampleForm.applianceItems ++
          [{ id := "custom-1700000000000", nozzles := 3, price := 1800, selected := true }] ∧
      (updateSummary customAddedState).applianceNozzles = 3 ∧
      (performCalculation sampleSerializer sampleClock customAddedState).2 =
        Outcome.redirect "results.html" ∧
      ∃ r, (performCalculation sampleSerializer sampleClock customAddedState).1.currentCalculation =
          some r ∧
        r.configuration.appliances = [] ∧
        r.results.nozzles.appliances = 0 ∧
        r.results.subtotals.appliances = 0 := by
  have hitems : customAddedState.form.applianceItems =
      sampleForm.applianceItems ++
        [{ id := "custom-1700000000000", nozzles := 3, price := 1800, selected := true }] := by
    rw [customAddedState_eq]
  have hsel : selectAppliances customAddedState.form.applianceItems = [] := by
    rw [hitems]
    decide
  have hred : (performCalculation sampleSerializer sampleClock customAddedState).2 =
      Outcome.redirect "results.html" := by
    rw [customAddedState_eq]
    exact redirect_of_valid sampleSerializer sampleClock (by decide) (by decide)
      (by norm_num [sampleForm, readForm, orNum]) (by norm_num [sampleForm, readForm, orNum])
  refine ⟨hitems, ?_, hred, newCalculation sampleClock customAddedState,
    current_of_redirect hred, hsel, ?_, ?_⟩
  · rw [customAddedState_eq]
    decide
  · simp [newCalculation, buildCalculation, hsel, sumNozzles]
  · simp [newCalculation, buildCalculation, scaledSubtotals, baseSubtotals, Subtotals.scale, hsel,
      sumPrices]

/-! ## The record store -/

theorem recent_after_add (ser : Serializer) (r : Calculation) (st : State) :
    (addToRecentCalculations ser r st).recentCalculations =
      (r :: st.recentCalculations).take 5 := by
  unfold addToRecentCalculations
  simp only
  split_ifs with hlen
  · rfl
  · exact (List.take_of_length_le (by simpa using hlen)).symm

/-- C9: for every history `h` of at most 5 records and every record `r`,
`addToRecentCalculations` leaves the history equal to the first 5 elements of `r :: h`: `r` is at
the head, the older records that survive are the first 4 of `h` in their order, the length is
`min (|h| + 1) 5` and at most 5, and when `|h| = 5` the history is `r` followed by `h` without its
last record. -/
theorem recent_calculations_bounded (ser : Serializer) (r : Calculation) (st : State)
    (hlen : st.recentCalculations.length ≤ 5) :
    (addToRecentCalculations ser r st).recentCalculations =
        (r :: st.recentCalculations).take 5 ∧
      (addToRecentCalculations ser r st).recentCalculations.head? = some r ∧
      (addToRecentCalculations ser r st).recentCalculations.tail = st.recentCalculations.take 4 ∧
      (addToRecentCalculations ser r st).recentCalculations.length =
        min (st.recentCalculations.length + 1) 5 ∧
      (addToRecentCalculations ser r st).recentCalculations.length ≤ 5 ∧
      (st.recentCalculations.length < 5 →
        (addToRecentCalculations ser r st).recentCalculations = r :: st.recentCalculations) ∧
      (st.recentCalculations.length = 5 →
        (addToRecentCalculations ser r st).recentCalculations =
          r :: st.recentCalculations.dropLast) := by
  rw [recent_after_add]
  refine ⟨rfl, by simp, by simp, ?_, ?_, ?_, ?_⟩
  · simp only [List.length_take, List.length_cons]
    omega
  · simp only [List.length_take, List.length_cons]
    omega
  · intro hlt
    simp only [List.take_succ_cons]
    rw [List.take_of_length_le (by omega)]
  · intro h5
    simp only [List.take_succ_cons]
    rw [List.dropLast_eq_take, h5]

/-- The theorem `recent_calculations_bounded` at a full history of five records: adding a sixth
record puts it at the head, keeps the four newer records in their order, evicts the oldest one
(clock value 1700000000001) and leaves the length at 5. -/
theorem recent_calculations_bounded_witness :
    fullHistoryState.recentCalculations.length ≤ 5 ∧
      fullHistoryState.recentCalculations.length = 5 ∧
      (addToRecentCalculations sampleSerializer (recordAt 1700000000006)
        fullHistoryState).recentCalculations =
        [recordAt 1700000000006, recordAt 1700000000005, recordAt 1700000000004,
          recordAt 1700000000003, recordAt 1700000000002] ∧
      (addToRecentCalculations sampleSerializer (recordAt 1700000000006)
        fullHistoryState).recentCalculations.head? = some (recordAt 1700000000006) ∧
      (addToRecentCalculations sampleSerializer (recordAt 1700000000006)
        fullHistoryState).recentCalculations.length = 5 :=
  ⟨by decide, by decide,
    (recent_calculations_bounded sampleSerializer (recordAt 1700000000006) fullHistoryState
      (by decide)).2.2.2.2.2.2 (by decide),
    (recent_calculations_bounded sampleSerializer (recordAt 1700000000006) fullHistoryState
      (by decide)).2.1,
    (recent_calculations_bounded sampleSerializer (recordAt 1700000000006) fullHistoryState
      (by decide)).2.2.2.1⟩

/-- C10: after every run of `performCalculation` that passes validation, the newly built record is
the current calculation, its serialization is the persisted last-calculation slot, it is the head
of the history, and the persisted recent-calculations list is the serialization of the in-memory
history. -/
theorem record_committed (ser : Serializer) (clock : Clock) (st : State)
    (h : (performCalculation ser clock st).2 = Outcome.redirect "results.html") :
    ∃ r, r = buildCalculation st.expertMode clock (readForm st.form)
          (selectAppliances st.form.applianceItems) ∧
      r.id = clock.now ∧
      (performCalculation ser clock st).1.currentCalculation = some r ∧
      (performCalculation ser clock st).1.storage.kfss_last_calculation =
        some (ser.stringify r) ∧
      (performCalculation ser clock st).1.recentCalculations.head? = some r ∧
      (performCalculation ser clock st).1.storage.kfss_recent_calculations =
        some (ser.stringifyList (performCalculation ser clock st).1.recentCalculations) := by
  refine ⟨newCalculation clock st, rfl, rfl, current_of_redirect h, ?_, ?_, ?_⟩
  · rw [performCalculation_of_redirect h]
    rfl
  · rw [performCalculation_of_redirect h]
    simp only [recent_after_add]
    simp
  · rw [performCalculation_of_redirect h]
    rfl

/-- The theorem `record_committed` at the sample state: the stored record carries the id read
from the clock and is the only entry of the history. -/
theorem record_committed_witness :
    (performCalculation sampleSerializer sampleClock sampleState).2 =
        Outcome.redirect "results.html" ∧
      ∃ r, r.id = 1700000000000 ∧
        (performCalculation sampleSerializer sampleClock sampleState).1.currentCalculation =
          some r ∧
        (performCalculation sampleSerializer sampleClock sampleState).1.storage.kfss_last_calculation =
          some (sampleSerializer.stringify r) ∧
        (performCalculation sampleSerializer sampleClock sampleState).1.recentCalculations.head? =
          some r := by
  refine ⟨sample_redirect, ?_⟩
  obtain ⟨r, -, hid, hcur, hlast, hhead, -⟩ :=
    record_committed sampleSerializer sampleClock sampleState sample_redirect
  exact ⟨r, hid, hcur, hlast, hhead⟩

/-! ## Reloading a record and resetting -/

theorem find_first_match (id : ℤ) (pre post : List Calculation) (c : Calculation)
    (hpre : ∀ x ∈ pre, (x.id : ℤ) ≠ id) (hc : (c.id : ℤ) = id) :
    (pre ++ c :: post).find? (fun r => decide ((r.id : ℤ) = id)) = some c := by
  induction pre with
  | nil => simp [hc]
  | cons a t ih =>
    have ha : (a.id : ℤ) ≠ id := hpre a (List.mem_cons_self a t)
    have ht : ∀ x ∈ t, (x.id : ℤ) ≠ id := fun x hx => hpre x (List.mem_cons_of_mem a hx)
    simp only [List.cons_append, List.find?_cons, ha, decide_False]
    exact ih ht

theorem find_no_match (id : ℤ) (l : List Calculation) (h : ∀ x ∈ l, (x.id : ℤ) ≠ id) :
    l.find? (fun r => decide ((r.id : ℤ) = id)) = none := by
  rw [List.find?_eq_none]
  intro x hx
  simpa using h x hx

/-- C11: for every history and every id, when no record of the history carries the id,
`loadRecentCalculation` returns without an alert and leaves the whole state (current calculation,
history, both persisted slots, form) unchanged; when some record carries the id, the first such
record becomes the current calculation, its serialization becomes the last-calculation slot, and
the history and the persisted recent list are unchanged. -/
theorem load_recent_by_id (ser : Serializer) (id : ℤ) (st : State) :
    ((∀ c ∈ st.recentCalculations, (c.id : ℤ) ≠ id) →
        loadRecentCalculation ser id st = (st, Outcome.done)) ∧
      (∀ pre c post, st.recentCalculations = pre ++ c :: post →
        (∀ x ∈ pre, (x.id : ℤ) ≠ id) → (c.id : ℤ) = id →
        (loadRecentCalculation ser id st).1.currentCalculation = some c ∧
        (loadRecentCalculation ser id st).1.storage.kfss_last_calculation =
          some (ser.stringify c) ∧
        (loadRecentCalculation ser id st).1.recentCalculations = st.recentCalculations ∧
        (loadRecentCalculation ser id st).1.storage.kfss_recent_calculations =
          st.storage.kfss_recent_calculations) := by
  constructor
  · intro h
    unfold loadRecentCalculation
    rw [find_no_match id _ h]
  · intro pre c post hl hpre hc
    unfold loadRecentCalculation
    rw [hl, find_first_match id pre post c hpre hc]
    simp [updateFormFromCalculation]

/-- The theorem `load_recent_by_id` at the sample history: the id 42 is carried by no record and
changes nothing; the id of the older record makes that record current. -/
theorem load_recent_by_id_witness :
    loadRecentCalculation sampleSerializer 42 historyState = (historyState, Outcome.done) ∧
      (loadRecentCalculation sampleSerializer 1700000000000 historyState).1.currentCalculation =
        some (newCalculation sampleClock sampleState) ∧
      (loadRecentCalculation sampleSerializer 1700000000000 historyState).1.recentCalculations =
        historyState.recentCalculations := by
  have hmiss := (load_recent_by_id sampleSerializer 42 historyState).1 (by decide)
  have hhit := (load_recent_by_id sampleSerializer 1700000000000 historyState).2
    [newCalculation laterClock sampleState] (newCalculation sampleClock sampleState) [] rfl
    (by decide) (by decide)
  exact ⟨hmiss, hhit.1, hhit.2.2.1⟩

/-- C12, counterexample: a confirmed `resetCalculator` on the sample history of two records
leaves both records in the in-memory history and leaves the persisted recent list set. -/
theorem reset_history_not_empty :
    (resetCalculator true historyState).recentCalculations =
        [newCalculation laterClock sampleState, newCalculation sampleClock sampleState] ∧
      (resetCalculator true historyState).recentCalculations ≠ [] ∧
      (resetCalculator true historyState).storage.kfss_recent_calculations =
        some "2023-11-14T22:13:20.500Z2023-11-14T22:13:20.000Z" := by
  refine ⟨rfl, ?_, rfl⟩
  intro h
  exact List.cons_ne_nil _ _ h

/-- C12, amended: `resetCalculator`, confirmed or not, leaves the history of recent calculations
as it was, the in-memory list and the persisted recent list alike. -/
theorem reset_keeps_history (confirmed : Bool) (st : State) :
    (resetCalculator confirmed st).recentCalculations = st.recentCalculations ∧
      (resetCalculator confirmed st).storage.kfss_recent_calculations =
        st.storage.kfss_recent_calculations := by
  cases confirmed <;> exact ⟨rfl, rfl⟩

/-- C13: after a confirmed `resetCalculator` the current calculation is null, the persisted
last-calculation slot is absent and no appliance item is selected; a declined confirmation
leaves the state as it was. -/
theorem reset_clears_current (st : State) :
    (resetCalculator true st).currentCalculation = none ∧
      (resetCalculator true st).storage.kfss_last_calculation = none ∧
      (∀ item ∈ (resetCalculator true st).form.applianceItems, item.selected = false) ∧
      resetCalculator false st = st := by
  refine ⟨rfl, rfl, ?_, rfl⟩
  intro item hitem
  simp only [resetCalculator, Bool.not_true, Bool.false_eq_true, if_false, List.mem_filter,
    List.mem_map] at hitem
  obtain ⟨⟨a, -, rfl⟩, -⟩ := hitem
  rfl

/-! ## Validation -/

theorem orNum_zero_nonpos (v : Option ℚ) (h : ∀ x, v = some x → x ≤ 0) : orNum v 0 ≤ 0 := by
  cases v with
  | none => simp [orNum]
  | some x =>
    have hx : x ≤ 0 := h x rfl
    unfold orNum
    simp only
    split_ifs
    · exact le_refl 0
    · exact hx

/-- C14: for every form state in which the hood length or the hood depth field is empty,
non-numeric or holds a number `<= 0`, `performCalculation` ends in one of its two validation
alerts and returns the state it was given: the current calculation, the history and both
persisted slots are as before and no record is created. -/
theorem invalid_hood_aborts (ser : Serializer) (clock : Clock) (st : State)
    (h : (∀ x, st.form.hoodLength = some x → x ≤ 0) ∨
      (∀ x, st.form.hoodDepth = some x → x ≤ 0)) :
    performCalculation ser clock st =
        (st, Outcome.alert "Please fill in Project Name and Client Name") ∨
      performCalculation ser clock st =
        (st, Outcome.alert "Please enter valid hood dimensions") := by
  have hv : (readForm st.form).hoodLength ≤ 0 ∨ (readForm st.form).hoodDepth ≤ 0 := by
    rcases h with h | h
    · exact Or.inl (orNum_zero_nonpos _ h)
    · exact Or.inr (orNum_zero_nonpos _ h)
  unfold performCalculation
  simp only
  split_ifs with h1
  · exact Or.inl rfl
  · exact Or.inr rfl

/-- The theorem `invalid_hood_aborts` at the sample state with an empty hood length field: the
run ends in the hood alert and the state is unchanged. -/
theorem invalid_hood_aborts_witness :
    ((∀ x, emptyHoodState.form.hoodLength = some x → x ≤ 0) ∨
        (∀ x, emptyHoodState.form.hoodDepth = some x → x ≤ 0)) ∧
      performCalculation sampleSerializer sampleClock emptyHoodState =
        (emptyHoodState, Outcome.alert "Please enter valid hood dimensions") := by
  have hyp : (∀ x, emptyHoodState.form.hoodLength = some x → x ≤ 0) ∨
      (∀ x, emptyHoodState.form.hoodDepth = some x → x ≤ 0) :=
    Or.inl (fun x hx => by simp [emptyHoodState] at hx)
  refine ⟨hyp, ?_⟩
  rcases invalid_hood_aborts sampleSerializer sampleClock emptyHoodState hyp with h | h
  · exfalso
    have h2 := congrArg Prod.snd h
    have hname : jsTrim (readForm emptyHoodState.form).projectName ≠ "" := by decide
    have hclient : jsTrim (readForm emptyHoodState.form).clientName ≠ "" := by decide
    unfold performCalculation at h2
    simp only at h2
    rw [if_neg (by simp [hname, hclient])] at h2
    split_ifs at h2
    simp at h2
  · exact h

/-- C15, at a failing input: with the project name field holding the empty string (all other
fields as in the sample form), `performCalculation` does not abort: it redirects to the results
page and stores, persists and puts in the history a record named "Unnamed Project". -/
theorem empty_name_commits :
    emptyNameState.form.projectName = some "" ∧
      (performCalculation sampleSerializer sampleClock emptyNameState).2 =
        Outcome.redirect "results.html" ∧
      ∃ r, r.project.name = "Unnamed Project" ∧
        (performCalculation sampleSerializer sampleClock emptyNameState).1.currentCalculation =
          some r ∧
        (performCalculation sampleSerializer sampleClock emptyNameState).1.recentCalculations =
          [r] ∧
        (performCalculation sampleSerializer sampleClock
          emptyNameState).1.storage.kfss_last_calculation = some (sampleSerializer.stringify r) := by
  have hred : (performCalculation sampleSerializer sampleClock emptyNameState).2 =
      Outcome.redirect "results.html" :=
    redirect_of_valid sampleSerializer sampleClock (by decide) (by decide)
      (by norm_num [emptyNameState, sampleState, sampleForm, readForm, orNum])
      (by norm_num [emptyNameState, sampleState, sampleForm, readForm, orNum])
  refine ⟨rfl, hred, newCalculation sampleClock emptyNameState, by decide,
    current_of_redirect hred, ?_, ?_⟩
  · rw [performCalculation_of_redirect hred]
    rfl
  · rw [performCalculation_of_redirect hred]
    rfl

/-! ## Start-up -/

theorem setupExpertModeToggle_storage (st : State) :
    (setupExpertModeToggle st).storage = st.storage := by
  unfold setupExpertModeToggle
  split_ifs <;> rfl

theorem setupExpertModeToggle_current (st : State) :
    (setupExpertModeToggle st).currentCalculation = st.currentCalculation := by
  unfold setupExpertModeToggle
  split_ifs <;> rfl

/-- C16: when the persisted recent-calculations string does not parse, `loadRecentCalculations`
leaves the history empty; when it parses, the history is the parsed list; when the persisted
last-calculation string does not parse, `init` run on the initial module variables leaves the
current calculation absent. The functions are total: no error is raised. -/
theorem load_persisted (ser : Serializer) :
    (∀ (st : State) (saved : String), st.storage.kfss_recent_calculations = some saved →
        saved ≠ "" → ser.parseList saved = none →
        (loadRecentCalculations ser st).recentCalculations = []) ∧
      (∀ (st : State) (saved : String) (parsed : List Calculation),
        st.storage.kfss_recent_calculations = some saved →
        saved ≠ "" → ser.parseList saved = some parsed →
        (loadRecentCalculations ser st).recentCalculations = parsed) ∧
      (∀ (form : Form) (storage : Storage) (lastCalc : String),
        storage.kfss_last_calculation = some lastCalc → ser.parse lastCalc = none →
        (init ser (initialState form storage)).currentCalculation = none) := by
  refine ⟨?_, ?_, ?_⟩
  · intro st saved hs hne hp
    simp [loadRecentCalculations, hs, hne, hp]
  · intro st saved parsed hs hne hp
    simp [loadRecentCalculations, hs, hne, hp]
  · intro form storage lastCalc hs hp
    have hstore : (setupExpertModeToggle (initializeAppliances
        (loadRecentCalculations ser (initialState form storage)))).storage = storage := by
      rw [setupExpertModeToggle_storage]
      unfold loadRecentCalculations
      cases hrec : (initialState form storage).storage.kfss_recent_calculations with
      | none => rfl
      | some saved =>
        simp only
        split_ifs
        · rfl
        · cases ser.parseList saved <;> rfl
    have hcur : (setupExpertModeToggle (initializeAppliances
        (loadRecentCalculations ser (initialState form storage)))).currentCalculation = none := by
      rw [setupExpertModeToggle_current]
      unfold loadRecentCalculations
      cases hrec : (initialState form storage).storage.kfss_recent_calculations with
      | none => rfl
      | some saved =>
        simp only
        split_ifs
        · rfl
        · cases ser.parseList saved <;> rfl
    unfold init
    simp only [hstore, hs, hp]
    split_ifs <;> exact hcur

/-- The theorem `load_persisted` at the sample serializer, which parses nothing, and a storage
with unreadable text in both slots: the history is empty and no calculation is current. -/
theorem load_persisted_witness :
    (loadRecentCalculations sampleSerializer
        (initialState sampleForm corruptStorage)).recentCalculations = [] ∧
      (init sampleSerializer (initialState sampleForm corruptStorage)).currentCalculation =
        none :=
  ⟨(load_persisted sampleSerializer).1 (initialState sampleForm corruptStorage) "not json" rfl
      (by decide) rfl,
    (load_persisted sampleSerializer).2.2 sampleForm corruptStorage "not json" rfl rfl⟩

/-! ## Record ids -/

theorem redirect_of_form_eq {ser : Serializer} {clock : Clock} {st : State} {href : String}
    (ser2 : Serializer) (clock2 : Clock) (st2 : State) (hform : st2.form = st.form)
    (h : (performCalculation ser clock st).2 = Outcome.redirect href) :
    (performCalculation ser2 clock2 st2).2 = Outcome.redirect "results.html" := by
  obtain ⟨⟨v1, v2⟩, v3, v4⟩ := valid_of_redirect h
  rw [← hform] at v1 v2 v3 v4
  exact redirect_of_valid ser2 clock2 v1 v2 v3 v4

theorem afterFirstRun_eq :
    afterFirstRun =
      addToRecentCalculations sampleSerializer (newCalculation sampleClock sampleState)
        { sampleState with
          currentCalculation := some (newCalculation sampleClock sampleState),
          storage :=
            { sampleState.storage with
              kfss_last_calculation :=
                some (sampleSerializer.stringify (newCalculation sampleClock sampleState)) } } := by
  unfold afterFirstRun
  rw [performCalculation_of_redirect sample_redirect]

theorem afterFirstRun_redirect (clock : Clock) :
    (performCalculation sampleSerializer clock afterFirstRun).2 =
      Outcome.redirect "results.html" :=
  redirect_of_form_eq sampleSerializer clock afterFirstRun
    (by rw [afterFirstRun_eq]; rfl) sample_redirect

/-- C17, counterexample: two successive successful runs of `performCalculation` in one process
run that both read the clock value 1700000000000 create two records, both kept in the history,
with the same id; the later id is not greater. -/
theorem same_clock_same_id :
    (performCalculation sampleSerializer sampleClock sampleState).2 =
        Outcome.redirect "results.html" ∧
      (performCalculation sampleSerializer sampleClock afterFirstRun).2 =
        Outcome.redirect "results.html" ∧
      ∃ r1 r2, afterFirstRun.currentCalculation = some r1 ∧
        (performCalculation sampleSerializer sampleClock afterFirstRun).1.currentCalculation =
          some r2 ∧
        (performCalculation sampleSerializer sampleClock afterFirstRun).1.recentCalculations =
          [r2, r1] ∧
        r1.id = r2.id ∧ ¬ r1.id < r2.id := by
  refine ⟨sample_redirect, afterFirstRun_redirect sampleClock,
    newCalculation sampleClock sampleState, newCalculation sampleClock afterFirstRun,
    current_of_redirect sample_redirect, current_of_redirect (afterFirstRun_redirect sampleClock),
    ?_, rfl, lt_irrefl _⟩
  rw [performCalculation_of_redirect (afterFirstRun_redirect sampleClock), recent_after_add]
  simp only [afterFirstRun_eq, recent_after_add]
  rfl

/-- C17, amended: each record created by a successful `performCalculation` carries as id the
clock value read by that run; of two such records the later one has a strictly greater id when
its run reads a strictly greater clock value, and the two ids are equal when both runs read the
same value. -/
theorem record_id_from_clock (ser : Serializer) (c1 c2 : Clock) (st1 st2 : State)
    (h1 : (performCalculation ser c1 st1).2 = Outcome.redirect "results.html")
    (h2 : (performCalculation ser c2 st2).2 = Outcome.redirect "results.html") :
    ∃ r1 r2, (performCalculation ser c1 st1).1.currentCalculation = some r1 ∧
      (performCalculation ser c2 st2).1.currentCalculation = some r2 ∧
      r1.id = c1.now ∧ r2.id = c2.now ∧
      (c1.now < c2.now → r1.id < r2.id) ∧
      (c1.now ≠ c2.now → r1.id ≠ r2.id) ∧
      (c1.now = c2.now → r1.id = r2.id) :=
  ⟨newCalculation c1 st1, newCalculation c2 st2, current_of_redirect h1, current_of_redirect h2,
    rfl, rfl, fun h => h, fun h => h, fun h => h⟩

/-- The theorem `record_id_from_clock` at the sample state and the state after its first run,
with the second run half a second later: the later id is strictly greater. -/
theorem record_id_from_clock_witness :
    (performCalculation sampleSerializer sampleClock sampleState).2 =
        Outcome.redirect "results.html" ∧
      (performCalculation sampleSerializer laterClock afterFirstRun).2 =
        Outcome.redirect "results.html" ∧
      ∃ r1 r2, (performCalculation sampleSerializer sampleClock sampleState).1.currentCalculation =
          some r1 ∧
        (performCalculation sampleSerializer laterClock afterFirstRun).1.currentCalculation =
          some r2 ∧
        r1.id = 1700000000000 ∧ r2.id = 1700000000500 ∧ r1.id < r2.id := by
  refine ⟨sample_redirect, afterFirstRun_redirect laterClock, ?_⟩
  obtain ⟨r1, r2, hr1, hr2, hid1, hid2, hlt, -, -⟩ :=
    record_id_from_clock sampleSerializer sampleClock laterClock sampleState afterFirstRun
      sample_redirect (afterFirstRun_redirect laterClock)
  exact ⟨r1, r2, hr1, hr2, hid1, hid2, hlt (by decide)⟩

/-! ## Custom appliances -/

/-- C18: with `n` the nozzle count that `addCustomAppliance` uses, when the trimmed name is not
empty and `1 <= n <= 5` the appliance list gains, at its end, one selected item with nozzle count
`n` and price `600 * n`; when the trimmed name is empty or `n < 1` or `n > 5` the function ends in
an alert and returns the state it was given; so the list changes only in the first case. -/
theorem add_custom_appliance_spec (now : ℕ) (st : State) :
    (jsTrim st.form.customAppliance ≠ "" →
        1 ≤ orInt st.form.customNozzles 1 → orInt st.form.customNozzles 1 ≤ 5 →
        (addCustomAppliance now st).1.form.applianceItems =
          st.form.applianceItems ++
            [{ id := "custom-" ++ toString now,
               nozzles := orInt st.form.customNozzles 1,
               price := 600 * (orInt st.form.customNozzles 1 : ℚ),
               selected := true }]) ∧
      (jsTrim st.form.customAppliance = "" ∨ orInt st.form.customNozzles 1 < 1 ∨
          5 < orInt st.form.customNozzles 1 →
        (addCustomAppliance now st).1 = st ∧
          ∃ msg, (addCustomAppliance now st).2 = Outcome.alert msg) ∧
      ((addCustomAppliance now st).1.form.applianceItems ≠ st.form.applianceItems →
        jsTrim st.form.customAppliance ≠ "" ∧
          1 ≤ orInt st.form.customNozzles 1 ∧ orInt st.form.customNozzles 1 ≤ 5) := by
  have hbad : jsTrim st.form.customAppliance = "" ∨ orInt st.form.customNozzles 1 < 1 ∨
      5 < orInt st.form.customNozzles 1 →
      (addCustomAppliance now st).1 = st ∧
        ∃ msg, (addCustomAppliance now st).2 = Outcome.alert msg := by
    intro h
    unfold addCustomAppliance
    simp only
    by_cases hname : jsTrim st.form.customAppliance = ""
    · rw [if_pos hname]
      exact ⟨rfl, _, rfl⟩
    · rw [if_neg hname]
      have hn : orInt st.form.customNozzles 1 < 1 ∨ orInt st.form.customNozzles 1 > 5 := by
        rcases h with h | h | h
        · exact absurd h hname
        · exact Or.inl h
        · exact Or.inr h
      rw [if_pos hn]
      exact ⟨rfl, _, rfl⟩
  refine ⟨?_, hbad, ?_⟩
  · intro hname h1 h5
    unfold addCustomAppliance
    simp only
    rw [if_neg hname, if_neg (by omega)]
    simp [mul_comm]
  · intro hne
    by_contra hcon
    have hbad2 : jsTrim st.form.customAppliance = "" ∨ orInt st.form.customNozzles 1 < 1 ∨
        5 < orInt st.form.customNozzles 1 := by
      by_cases hname : jsTrim st.form.customAppliance = ""
      · exact Or.inl hname
      · by_cases h1 : orInt st.form.customNozzles 1 < 1
        · exact Or.inr (Or.inl h1)
        · by_cases h5 : 5 < orInt st.form.customNozzles 1
          · exact Or.inr (Or.inr h5)
          · exact absurd ⟨hname, by omega, by omega⟩ hcon
    exact hne (by rw [(hbad hbad2).1])

/-- The theorem `add_custom_appliance_spec` at the sample page with the inputs "Tandoor" and 3:
the list gains a selected item with three nozzles and price 1800. -/
theorem add_custom_appliance_spec_witness :
    (addCustomAppliance 1700000000000 customInputState).1.form.applianceItems =
      customInputState.form.applianceItems ++
        [{ id := "custom-" ++ toString 1700000000000,
           nozzles := orInt customInputState.form.customNozzles 1,
           price := 600 * (orInt customInputState.form.customNozzles 1 : ℚ),
           selected := true }] :=
  (add_custom_appliance_spec 1700000000000 customInputState).1 (by decide) (by decide)
    (by decide)

/-! ## Invariants of a committed record -/

theorem standard_bounds (a : Appliance) (ha : a ∈ standardAppliances) :
    1 ≤ a.nozzles ∧ a.nozzles ≤ 5 ∧ 0 ≤ a.price := by
  simp only [standardAppliances, List.mem_cons, List.mem_singleton, List.not_mem_nil,
    or_false] at ha
  rcases ha with rfl | rfl | rfl | rfl | rfl | rfl | rfl | rfl <;> norm_num

theorem selectAppliances_standard (items : List ApplianceItem) (a : Appliance)
    (ha : a ∈ selectAppliances items) : a ∈ standardAppliances := by
  unfold selectAppliances at ha
  rw [List.mem_filterMap] at ha
  obtain ⟨item, -, hfind⟩ := ha
  exact List.mem_of_find?_eq_some hfind

theorem sum_nozzles_nonneg (l : List Appliance) (h : ∀ a ∈ l, 1 ≤ a.nozzles) :
    0 ≤ (l.map Appliance.nozzles).sum := by
  apply List.sum_nonneg
  intro x hx
  rw [List.mem_map] at hx
  obtain ⟨a, ha, rfl⟩ := hx
  have := h a ha
  omega

theorem sum_prices_nonneg (l : List Appliance) (h : ∀ a ∈ l, 0 ≤ a.price) :
    0 ≤ (l.map Appliance.price).sum := by
  apply List.sum_nonneg
  intro x hx
  rw [List.mem_map] at hx
  obtain ⟨a, ha, rfl⟩ := hx
  exact h a ha

/-- C19, counterexample: with the plenum sections field reading -3, `performCalculation` passes
validation and commits a record with plenumSections -3, total nozzles -2 and a negative nozzles
subtotal, the safety factor being 10; and in expert mode with the duct length field reading -100
it commits a record whose section counts and safety factor are non-negative and whose piping
subtotal is negative. -/
theorem negative_input_committed :
    ((performCalculation sampleSerializer sampleClock negativeSectionsState).2 =
        Outcome.redirect "results.html" ∧
      ∃ r, (performCalculation sampleSerializer sampleClock
          negativeSectionsState).1.currentCalculation = some r ∧
        r.configuration.hood.plenumSections = -3 ∧
        r.configuration.system.safetyFactor = 10 ∧
        r.results.nozzles.total = -2 ∧
        r.results.subtotals.nozzles = -187) ∧
      ((performCalculation sampleSerializer sampleClock negativeDuctState).2 =
        Outcome.redirect "results.html" ∧
      ∃ r, (performCalculation sampleSerializer sampleClock
          negativeDuctState).1.currentCalculation = some r ∧
        r.configuration.hood.plenumSections = 2 ∧
        r.configuration.hood.ductSections = 1 ∧
        r.configuration.system.safetyFactor = 10 ∧
        r.results.subtotals.piping < 0) := by
  have hredA : (performCalculation sampleSerializer sampleClock negativeSectionsState).2 =
      Outcome.redirect "results.html" :=
    redirect_of_valid sampleSerializer sampleClock (by decide) (by decide)
      (by norm_num [negativeSectionsState, sampleState, sampleForm, readForm, orNum])
      (by norm_num [negativeSectionsState, sampleState, sampleForm, readForm, orNum])
  have hredB : (performCalculation sampleSerializer sampleClock negativeDuctState).2 =
      Outcome.redirect "results.html" :=
    redirect_of_valid sampleSerializer sampleClock (by decide) (by decide)
      (by norm_num [negativeDuctState, sampleState, sampleForm, readForm, orNum])
      (by norm_num [negativeDuctState, sampleState, sampleForm, readForm, orNum])
  have hselA : selectAppliances negativeSectionsState.form.applianceItems = [] := by decide
  have hselB : selectAppliances negativeDuctState.form.applianceItems = [] := by decide
  have hnA : (newCalculation sampleClock negativeSectionsState).results.nozzles.total = -2 := by
    simp only [newCalculation, buildCalculation, hselA]
    decide
  have hsfA : (newCalculation sampleClock negativeSectionsState).configuration.system.safetyFactor
      = 10 := by decide
  have hsubA : (newCalculation sampleClock negativeSectionsState).results.subtotals.nozzles =
      ((newCalculation sampleClock negativeSectionsState).results.nozzles.total : ℚ) * 85 *
        (1 + ((newCalculation sampleClock negativeSectionsState).configuration.system.safetyFactor
          : ℚ) / 100) := rfl
  have hnB : (newCalculation sampleClock negativeDuctState).results.nozzles.total = 3 := by
    simp only [newCalculation, buildCalculation, hselB]
    decide
  have hsfB : (newCalculation sampleClock negativeDuctState).configuration.system.safetyFactor
      = 10 := by decide
  have hdB : (readForm negativeDuctState.form).ductLength = -100 := by
    norm_num [negativeDuctState, sampleForm, readForm, orNum]
  have hsubB : (newCalculation sampleClock negativeDuctState).results.subtotals.piping =
      (((newCalculation sampleClock negativeDuctState).results.nozzles.total : ℚ) * 2 + 5 +
          (readForm negativeDuctState.form).ductLength) * 35 *
        (1 + ((newCalculation sampleClock negativeDuctState).configuration.system.safetyFactor
          : ℚ) / 100) := rfl
  refine ⟨⟨hredA, _, current_of_redirect hredA, by decide, hsfA, hnA, ?_⟩,
    ⟨hredB, _, current_of_redirect hredB, by decide, by decide, hsfB, ?_⟩⟩
  · rw [hsubA, hnA, hsfA]
    norm_num
  · rw [hsubB, hnB, hsfB, hdB]
    norm_num

/-- C19, amended: every record that `performCalculation` commits has hood length `> 0`, hood
depth `> 0` and only appliances with a nozzle count in `[1,5]`; its section counts are the parsed
form values; when both section counts are `>= 0`, the total nozzle count and the cylinder count
are `>= 0`, the piping length is `>= 0` if expert mode is off or the duct length is `>= 0`, and
with a safety factor `>= 0` and a piping length `>= 0` every subtotal is `>= 0`. -/
theorem committed_record_invariants (ser : Serializer) (clock : Clock) (st : State)
    (h : (performCalculation ser clock st).2 = Outcome.redirect "results.html") :
    ∃ r, (performCalculation ser clock st).1.currentCalculation = some r ∧
      0 < r.configuration.hood.length ∧ 0 < r.configuration.hood.depth ∧
      r.configuration.hood.plenumSections = orInt st.form.plenumSections 0 ∧
      r.configuration.hood.ductSections = orInt st.form.ductSections 0 ∧
      (∀ a ∈ r.configuration.appliances, 1 ≤ a.nozzles ∧ a.nozzles ≤ 5) ∧
      (0 ≤ r.configuration.hood.plenumSections → 0 ≤ r.configuration.hood.ductSections →
        0 ≤ r.results.nozzles.total ∧ 0 ≤ r.results.cylinders ∧
        (st.expertMode = false ∨ 0 ≤ r.configuration.hood.ductLength →
          0 ≤ r.results.pipingLength) ∧
        (0 ≤ r.configuration.system.safetyFactor → 0 ≤ r.results.pipingLength →
          0 ≤ r.results.subtotals.nozzles ∧ 0 ≤ r.results.subtotals.cylinders ∧
          0 ≤ r.results.subtotals.piping ∧ 0 ≤ r.results.subtotals.hoodAgentTank ∧
          0 ≤ r.results.subtotals.manualRelease ∧ 0 ≤ r.results.subtotals.installationLabor ∧
          0 ≤ r.results.subtotals.commissioning ∧ 0 ≤ r.results.subtotals.appliances)) := by
  obtain ⟨-, v3, v4⟩ := valid_of_redirect h
  have hstd : ∀ a ∈ (newCalculation clock st).configuration.appliances,
      1 ≤ a.nozzles ∧ a.nozzles ≤ 5 ∧ 0 ≤ a.price :=
    fun a ha => standard_bounds a (selectAppliances_standard _ a ha)
  refine ⟨newCalculation clock st, current_of_redirect h, v3, v4, rfl, rfl,
    fun a ha => ⟨(hstd a ha).1, (hstd a ha).2.1⟩, ?_⟩
  intro hp hd
  have hsum : 0 ≤ ((newCalculation clock st).configuration.appliances.map
      Appliance.nozzles).sum :=
    sum_nozzles_nonneg _ (fun a ha => (hstd a ha).1)
  have htot : (newCalculation clock st).results.nozzles.total =
      (newCalculation clock st).configuration.hood.plenumSections +
        (newCalculation clock st).configuration.hood.ductSections +
        ((newCalculation clock st).configuration.appliances.map Appliance.nozzles).sum := by
    simp [newCalculation, buildCalculation, sumNozzles_eq]
  have hn : 0 ≤ (newCalculation clock st).results.nozzles.total := by
    rw [htot]; omega
  have hcyl : (newCalculation clock st).results.cylinders =
      ((newCalculation clock st).results.nozzles.total + 5) / 6 := ceilDiv6_eq _
  have hc : 0 ≤ (newCalculation clock st).results.cylinders := by
    rw [hcyl]; omega
  have hnq : (0 : ℚ) ≤ ((newCalculation clock st).results.nozzles.total : ℚ) := by
    exact_mod_cast hn
  have hcq : (0 : ℚ) ≤ ((newCalculation clock st).results.cylinders : ℚ) := by
    exact_mod_cast hc
  have hpipe : (newCalculation clock st).results.pipingLength =
      ((newCalculation clock st).results.nozzles.total : ℚ) * 2 + 5 +
        (if st.expertMode then (newCalculation clock st).configuration.hood.ductLength else 0) :=
    rfl
  refine ⟨hn, hc, ?_, ?_⟩
  · intro hexp
    rw [hpipe]
    rcases hexp with hoff | hdl
    · rw [hoff]
      simp only [Bool.false_eq_true, if_false]
      linarith
    · split_ifs <;> linarith
  · intro hs hL
    have hm : (0 : ℚ) ≤ 1 + ((newCalculation clock st).configuration.system.safetyFactor : ℚ) /
        100 := by
      have hsq : (0 : ℚ) ≤ ((newCalculation clock st).configuration.system.safetyFactor : ℚ) := by
        exact_mod_cast hs
      positivity
    have hprice : 0 ≤ sumPrices (newCalculation clock st).configuration.appliances := by
      rw [sumPrices_eq]
      exact sum_prices_nonneg _ (fun a ha => (hstd a ha).2.2)
    have e1 : (newCalculation clock st).results.subtotals.nozzles =
        ((newCalculation clock st).results.nozzles.total : ℚ) * 85 *
          (1 + ((newCalculation clock st).configuration.system.safetyFactor : ℚ) / 100) := rfl
    have e2 : (newCalculation clock st).results.subtotals.cylinders =
        ((newCalculation clock st).results.cylinders : ℚ) *
          (if (newCalculation clock st).results.cylinders > 1 then 1900 else 1200) *
          (1 + ((newCalculation clock st).configuration.system.safetyFactor : ℚ) / 100) := rfl
    have e3 : (newCalculation clock st).results.subtotals.piping =
        (newCalculation clock st).results.pipingLength * 35 *
          (1 + ((newCalculation clock st).configuration.system.safetyFactor : ℚ) / 100) := rfl
    have e4 : (newCalculation clock st).results.subtotals.hoodAgentTank =
        1800 * (1 + ((newCalculation clock st).configuration.system.safetyFactor : ℚ) / 100) :=
      rfl
    have e5 : (newCalculation clock st).results.subtotals.manualRelease =
        250 * (1 + ((newCalculation clock st).configuration.system.safetyFactor : ℚ) / 100) :=
      rfl
    have e6 : (newCalculation clock st).results.subtotals.installationLabor =
        850 * (1 + ((newCalculation clock st).configuration.system.safetyFactor : ℚ) / 100) :=
      rfl
    have e7 : (newCalculation clock st).results.subtotals.commissioning =
        400 * (1 + ((newCalculation clock st).configuration.system.safetyFactor : ℚ) / 100) :=
      rfl
    have e8 : (newCalculation clock st).results.subtotals.appliances =
        sumPrices (newCalculation clock st).configuration.appliances *
          (1 + ((newCalculation clock st).configuration.system.safetyFactor : ℚ) / 100) := rfl
    have hprice2 : (0 : ℚ) ≤
        (if (newCalculation clock st).results.cylinders > 1 then (1900 : ℚ) else 1200) := by
      split_ifs <;> norm_num
    refine ⟨?_, ?_, ?_, ?_, ?_, ?_, ?_, ?_⟩
    · rw [e1]; positivity
    · rw [e2]; positivity
    · rw [e3]; positivity
    · rw [e4]; positivity
    · rw [e5]; positivity
    · rw [e6]; positivity
    · rw [e7]; positivity
    · rw [e8]; positivity

/-- The theorem `committed_record_invariants` at the sample state: the committed record has
positive hood dimensions and three nozzles in all. -/
theorem committed_record_invariants_witness :
    (performCalculation sampleSerializer sampleClock sampleState).2 =
        Outcome.redirect "results.html" ∧
      ∃ r, (performCalculation sampleSerializer sampleClock sampleState).1.currentCalculation =
          some r ∧
        0 < r.configuration.hood.length ∧ 0 < r.configuration.hood.depth ∧
        r.configuration.hood.plenumSections = 2 ∧ 0 ≤ r.results.nozzles.total ∧
        0 ≤ r.results.cylinders := by
  refine ⟨sample_redirect, ?_⟩
  obtain ⟨r, hr, hl, hd, hp, hds, -, hnn⟩ :=
    committed_record_invariants sampleSerializer sampleClock sampleState sample_redirect
  have hp2 : r.configuration.hood.plenumSections = 2 := by rw [hp]; decide
  have hd1 : r.configuration.hood.ductSections = 1 := by rw [hds]; decide
  obtain ⟨hn, hc, -, -⟩ := hnn (by rw [hp2]; decide) (by rw [hd1]; decide)
  exact ⟨r, hr, hl, hd, hp2, hn, hc⟩

/-! ## Defaults of the numeric fields -/

theorem orNum_of_ne_zero (x d : ℚ) (hx : x ≠ 0) : orNum (some x) d = x := by
  simp [orNum, hx]

theorem orInt_of_ne_zero (x d : ℤ) (hx : x ≠ 0) : orInt (some x) d = x := by
  simp [orInt, hx]

/-- C20, counterexample: with both section count fields left empty, `performCalculation` passes
validation and stores plenumSections 0 and ductSections 0 (not 2 and 1), hence no nozzle at all;
with the hood length field left empty the value it uses is 0 (not 3.0) and it ends in the hood
alert. -/
theorem empty_fields_default_zero :
    ((performCalculation sampleSerializer sampleClock emptySectionsState).2 =
        Outcome.redirect "results.html" ∧
      ∃ r, (performCalculation sampleSerializer sampleClock
          emptySectionsState).1.currentCalculation = some r ∧
        r.configuration.hood.plenumSections = 0 ∧ r.configuration.hood.ductSections = 0 ∧
        r.results.nozzles.total = 0) ∧
      (readForm emptyHoodState.form).hoodLength = 0 ∧
      performCalculation sampleSerializer sampleClock emptyHoodState =
        (emptyHoodState, Outcome.alert "Please enter valid hood dimensions") := by
  have hred : (performCalculation sampleSerializer sampleClock emptySectionsState).2 =
      Outcome.redirect "results.html" :=
    redirect_of_valid sampleSerializer sampleClock (by decide) (by decide)
      (by norm_num [emptySectionsState, sampleState, sampleForm, readForm, orNum])
      (by norm_num [emptySectionsState, sampleState, sampleForm, readForm, orNum])
  have hsel : selectAppliances emptySectionsState.form.applianceItems = [] := by decide
  have hn : (newCalculation sampleClock emptySectionsState).results.nozzles.total = 0 := by
    simp only [newCalculation, buildCalculation, hsel]
    decide
  have hname : jsTrim (readForm emptyHoodState.form).projectName ≠ "" := by decide
  have hclient : jsTrim (readForm emptyHoodState.form).clientName ≠ "" := by decide
  have hlen : (readForm emptyHoodState.form).hoodLength = 0 := rfl
  refine ⟨⟨hred, _, current_of_redirect hred, by decide, by decide, hn⟩, hlen, ?_⟩
  unfold performCalculation
  simp only
  rw [if_neg (by simp [hname, hclient]), if_pos (Or.inl (le_of_eq hlen))]

/-- C20, amended: in `performCalculation` an empty or absent numeric field is read as 0 for the
hood length, hood depth, plenum sections and duct sections, as 5.0 for the duct length, as 10 for
the safety factor and as 100 for the pressure rating; an empty hood length or hood depth makes
the run end in a validation alert with the state unchanged; a field that holds a number other
than 0 is used as entered, and a run that passes validation stores the values so read. -/
theorem numeric_field_defaults (ser : Serializer) (clock : Clock) (st : State) :
    ((st.form.hoodLength = none → (readForm st.form).hoodLength = 0) ∧
      (st.form.hoodDepth = none → (readForm st.form).hoodDepth = 0) ∧
      (st.form.plenumSections = none → (readForm st.form).plenumSections = 0) ∧
      (st.form.ductSections = none → (readForm st.form).ductSections = 0) ∧
      (st.form.ductLength = none → (readForm st.form).ductLength = 5.0) ∧
      (st.form.safetyFactor = none → (readForm st.form).safetyFactor = 10) ∧
      (st.form.pressureRating = none → (readForm st.form).pressureRating = 100)) ∧
    ((∀ x, x ≠ 0 → st.form.hoodLength = some x → (readForm st.form).hoodLength = x) ∧
      (∀ x, x ≠ 0 → st.form.hoodDepth = some x → (readForm st.form).hoodDepth = x) ∧
      (∀ n, n ≠ 0 → st.form.plenumSections = some n → (readForm st.form).plenumSections = n) ∧
      (∀ n, n ≠ 0 → st.form.ductSections = some n → (readForm st.form).ductSections = n) ∧
      (∀ x, x ≠ 0 → st.form.ductLength = some x → (readForm st.form).ductLength = x) ∧
      (∀ n, n ≠ 0 → st.form.safetyFactor = some n → (readForm st.form).safetyFactor = n) ∧
      (∀ n, n ≠ 0 → st.form.pressureRating = some n → (readForm st.form).pressureRating = n)) ∧
    (st.form.hoodLength = none ∨ st.form.hoodDepth = none →
      ∃ msg, performCalculation ser clock st = (st, Outcome.alert msg)) ∧
    ((performCalculation ser clock st).2 = Outcome.redirect "results.html" →
      ∃ r, (performCalculation ser clock st).1.currentCalculation = some r ∧
        r.configuration.hood.length = (readForm st.form).hoodLength ∧
        r.configuration.hood.depth = (readForm st.form).hoodDepth ∧
        r.configuration.hood.plenumSections = (readForm st.form).plenumSections ∧
        r.configuration.hood.ductSections = (readForm st.form).ductSections ∧
        r.configuration.hood.ductLength = (readForm st.form).ductLength ∧
        r.configuration.system.safetyFactor = (readForm st.form).safetyFactor ∧
        r.configuration.system.pressureRating = (readForm st.form).pressureRating) := by
  refine ⟨⟨?_, ?_, ?_, ?_, ?_, ?_, ?_⟩, ⟨?_, ?_, ?_, ?_, ?_, ?_, ?_⟩, ?_, ?_⟩
  · intro h; simp [readForm, h, orNum]
  · intro h; simp [readForm, h, orNum]
  · intro h; simp [readForm, h, orInt]
  · intro h; simp [readForm, h, orInt]
  · intro h; simp [readForm, h, orNum]
  · intro h; simp [readForm, h, orInt]
  · intro h; simp [readForm, h, orInt]
  · intro x hx h; simp [readForm, h, orNum_of_ne_zero x _ hx]
  · intro x hx h; simp [readForm, h, orNum_of_ne_zero x _ hx]
  · intro n hn h; simp [readForm, h, orInt_of_ne_zero n _ hn]
  · intro n hn h; simp [readForm, h, orInt_of_ne_zero n _ hn]
  · intro x hx h; simp [readForm, h, orNum_of_ne_zero x _ hx]
  · intro n hn h; simp [readForm, h, orInt_of_ne_zero n _ hn]
  · intro n hn h; simp [readForm, h, orInt_of_ne_zero n _ hn]
  · intro h
    have hv : (readForm st.form).hoodLength ≤ 0 ∨ (readForm st.form).hoodDepth ≤ 0 := by
      rcases h with h | h
      · exact Or.inl (by simp [readForm, h, orNum])
      · exact Or.inr (by simp [readForm, h, orNum])
    unfold performCalculation
    simp only
    split_ifs
    · exact ⟨_, rfl⟩
    · exact ⟨_, rfl⟩
  · intro h
    exact ⟨newCalculation clock st, current_of_redirect h, rfl, rfl, rfl, rfl, rfl, rfl, rfl⟩

/-- The theorem `numeric_field_defaults` at the sample state with empty section count fields
(both read as 0) and at the sample state, whose run stores the safety factor 10 as entered. -/
theorem numeric_field_defaults_witness :
    (readForm emptySectionsState.form).plenumSections = 0 ∧
      (readForm emptySectionsState.form).ductSections = 0 ∧
      (readForm sampleState.form).safetyFactor = 10 ∧
      ∃ r, (performCalculation sampleSerializer sampleClock sampleState).1.currentCalculation =
          some r ∧
        r.configuration.system.safetyFactor = (readForm sampleState.form).safetyFactor :=
  ⟨(numeric_field_defaults sampleSerializer sampleClock emptySectionsState).1.2.2.1 rfl,
    (numeric_field_defaults sampleSerializer sampleClock emptySectionsState).1.2.2.2.1 rfl,
    (numeric_field_defaults sampleSerializer sampleClock sampleState).2.1.2.2.2.2.2.1 10
      (by decide) rfl,
    by
      obtain ⟨r, hr, -, -, -, -, -, hs, -⟩ :=
        (numeric_field_defaults sampleSerializer sampleClock sampleState).2.2.2 sample_redirect
      exact ⟨r, hr, hs⟩⟩

/-! ## The displayed amounts -/

theorem ceilDiv6_three : ceilDiv6 3 = 1 := by
  rw [ceilDiv6_eq]
  rfl

theorem eur_redirect :
    (performCalculation sampleSerializer sampleClock eurState).2 =
      Outcome.redirect "results.html" :=
  redirect_of_valid sampleSerializer sampleClock (by decide) (by decide)
    (by norm_num [eurState, sampleState, sampleForm, readForm, orNum])
    (by norm_num [eurState, sampleState, sampleForm, readForm, orNum])

theorem eur_record_subtotals :
    (newCalculation sampleClock eurState).results.subtotals =
      { nozzles := 280.5, cylinders := 1320, piping := 423.5, hoodAgentTank := 1980,
        manualRelease := 275, installationLabor := 935, commissioning := 440,
        appliances := 0 } := by
  have hsel : selectAppliances eurState.form.applianceItems = [] := by decide
  simp only [newCalculation, buildCalculation, scaledSubtotals, hsel]
  norm_num [baseSubtotals, Subtotals.scale, readForm, eurState, sampleState, sampleForm, orNum,
    orInt, orStr, sumNozzles, sumPrices, pricing, ceilDiv6_three]

theorem eur_record_rate :
    (newCalculation sampleClock eurState).results.exchangeRate = JsNumber.num 0.92 := by
  have h : (newCalculation sampleClock eurState).results.exchangeRate =
      exchangeRateFor (readForm eurState.form).currency := rfl
  have hc : (readForm eurState.form).currency = "EUR" := by decide
  rw [h, hc, exchangeRateFor_eur]

theorem eur_record_total :
    (newCalculation sampleClock eurState).results.totalCost = JsNumber.num 5201.68 := by
  have h : (newCalculation sampleClock eurState).results.totalCost =
      JsNumber.num (newCalculation sampleClock eurState).results.subtotals.total *
        (newCalculation sampleClock eurState).results.exchangeRate := rfl
  rw [h, eur_record_rate, eur_record_subtotals, total_values, JsNumber.num_mul,
    JsNumber.num.injEq]
  norm_num

theorem sample_record_subtotals :
    (newCalculation sampleClock sampleState).results.subtotals =
      { nozzles := 280.5, cylinders := 1320, piping := 423.5, hoodAgentTank := 1980,
        manualRelease := 275, installationLabor := 935, commissioning := 440,
        appliances := 0 } := by
  simp only [newCalculation, buildCalculation, scaledSubtotals, sample_selected]
  norm_num [baseSubtotals, Subtotals.scale, readForm, sampleState, sampleForm, orNum,
    orInt, orStr, sumNozzles, sumPrices, pricing, ceilDiv6_three]

theorem sample_record_rate :
    (newCalculation sampleClock sampleState).results.exchangeRate = JsNumber.num 1 := by
  have h : (newCalculation sampleClock sampleState).results.exchangeRate =
      exchangeRateFor (readForm sampleState.form).currency := rfl
  have hc : (readForm sampleState.form).currency = "USD" := by decide
  rw [h, hc, exchangeRateFor_usd]

theorem sample_record_total :
    (newCalculation sampleClock sampleState).results.totalCost = JsNumber.num 5654 := by
  have h : (newCalculation sampleClock sampleState).results.totalCost =
      JsNumber.num (newCalculation sampleClock sampleState).results.subtotals.total *
        (newCalculation sampleClock sampleState).results.exchangeRate := rfl
  rw [h, sample_record_rate, sample_record_subtotals, total_values, JsNumber.num_mul,
    JsNumber.num.injEq]
  norm_num

/-- C21, at a failing input: for the record that `performCalculation` stores for the sample form
with currency EUR (stored total cost 5201.68, rate 0.92), the amounts that `generateResultsHTML`
displays for the eight cost-breakdown categories add up to 5201.68, while the amount it displays
as Total System Cost is 4785.5456: the stored total, already converted, times the rate again. -/
theorem results_total_converted_twice :
    (performCalculation sampleSerializer sampleClock eurState).2 =
        Outcome.redirect "results.html" ∧
      ∃ r, (performCalculation sampleSerializer sampleClock eurState).1.currentCalculation =
          some r ∧
        r.results.exchangeRate = 0.92 ∧
        r.results.totalCost = 5201.68 ∧
        (generateResultsHTML r).costBreakdown.sum = 5201.68 ∧
        (generateResultsHTML r).totalSystemCost = 4785.5456 ∧
        (generateResultsHTML r).totalSystemCost ≠ (generateResultsHTML r).costBreakdown.sum := by
  have hrate : orRate (some (JsNumber.num 0.92)) 1 = JsNumber.num 0.92 :=
    orRate_num 0.92 _ (by norm_num)
  have hb : (generateResultsHTML (newCalculation sampleClock eurState)).costBreakdown.sum =
      JsNumber.num 5201.68 := by
    simp only [generateResultsHTML, eur_record_subtotals, eur_record_rate, Subtotals.values,
      hrate, List.map_cons, List.map_nil, List.sum_cons, List.sum_nil, JsNumber.num_mul,
      JsNumber.num_add, JsNumber.zero_eq, JsNumber.num.injEq]
    norm_num
  have ht : (generateResultsHTML (newCalculation sampleClock eurState)).totalSystemCost =
      JsNumber.num 4785.5456 := by
    simp only [generateResultsHTML, eur_record_total, eur_record_rate, hrate, JsNumber.num_mul,
      JsNumber.num.injEq]
    norm_num
  refine ⟨eur_redirect, _, current_of_redirect eur_redirect, eur_record_rate, eur_record_total,
    hb, ht, ?_⟩
  rw [hb, ht]
  intro hcon
  rw [JsNumber.num.injEq] at hcon
  norm_num at hcon

/-- C24, at a failing input: for the record that `performCalculation` stores for the sample form
(currency USD, safety factor 10, total cost 5654), `generateQuotationHTML` shows 5140 on the
SUBTOTAL row, 565.4 on the row labelled Safety Factor (10%) and 5654 on the TOTAL QUOTATION
AMOUNT row: the first two add up to 5705.4, not 5654, and 10 percent of the SUBTOTAL row is 514,
not 565.4. -/
theorem quotation_rows_mismatch :
    (performCalculation sampleSerializer sampleClock sampleState).2 =
        Outcome.redirect "results.html" ∧
      ∃ r, (performCalculation sampleSerializer sampleClock sampleState).1.currentCalculation =
          some r ∧
        r.configuration.system.safetyFactor = 10 ∧
        (generateQuotationHTML r).subtotal = 5140 ∧
        (generateQuotationHTML r).safetyFactorPercent = 10 ∧
        (generateQuotationHTML r).safetyFactorAmount = 565.4 ∧
        (generateQuotationHTML r).total = 5654 ∧
        (generateQuotationHTML r).subtotal + (generateQuotationHTML r).safetyFactorAmount =
          5705.4 ∧
        ((generateQuotationHTML r).safetyFactorPercent : ℚ) / 100 *
          (generateQuotationHTML r).subtotal = 514 := by
  have hsf : (newCalculation sampleClock sampleState).configuration.system.safetyFactor = 10 := by
    decide
  have hrate : orRate (some (JsNumber.num 1)) 1 = JsNumber.num 1 :=
    orRate_num 1 _ (by norm_num)
  have hs : (generateQuotationHTML (newCalculation sampleClock sampleState)).subtotal =
      JsNumber.num 5140 := by
    have hx : (generateQuotationHTML (newCalculation sampleClock sampleState)).subtotal =
        (newCalculation sampleClock sampleState).results.totalCost / JsNumber.num 1.1 *
          orRate (some (newCalculation sampleClock sampleState).results.exchangeRate) 1 := rfl
    rw [hx, sample_record_total, sample_record_rate, hrate, JsNumber.num_div, JsNumber.num_mul,
      JsNumber.num.injEq]
    norm_num
  have hp : (generateQuotationHTML (newCalculation sampleClock sampleState)).safetyFactorPercent
      = 10 := by
    simp only [generateQuotationHTML, hsf]
    decide
  have ha : (generateQuotationHTML (newCalculation sampleClock sampleState)).safetyFactorAmount
      = JsNumber.num 565.4 := by
    have hx : (generateQuotationHTML
        (newCalculation sampleClock sampleState)).safetyFactorAmount =
        (newCalculation sampleClock sampleState).results.totalCost * JsNumber.num 0.1 *
          orRate (some (newCalculation sampleClock sampleState).results.exchangeRate) 1 := rfl
    rw [hx, sample_record_total, sample_record_rate, hrate, JsNumber.num_mul, JsNumber.num_mul,
      JsNumber.num.injEq]
    norm_num
  have ht : (generateQuotationHTML (newCalculation sampleClock sampleState)).total =
      JsNumber.num 5654 := by
    have hx : (generateQuotationHTML (newCalculation sampleClock sampleState)).total =
        (newCalculation sampleClock sampleState).results.totalCost *
          orRate (some (newCalculation sampleClock sampleState).results.exchangeRate) 1 := rfl
    rw [hx, sample_record_total, sample_record_rate, hrate, JsNumber.num_mul,
      JsNumber.num.injEq]
    norm_num
  refine ⟨sample_redirect, _, current_of_redirect sample_redirect, hsf, hs, hp, ha, ht, ?_, ?_⟩
  · rw [hs, ha]
    show JsNumber.num 5140 + JsNumber.num 565.4 = JsNumber.num 5705.4
    rw [JsNumber.num_add, JsNumber.num.injEq]
    norm_num
  · rw [hs, hp]
    show JsNumber.num ((10 : ℤ) : ℚ) / JsNumber.num 100 * JsNumber.num 5140 = JsNumber.num 514
    rw [JsNumber.num_div, JsNumber.num_mul, JsNumber.num.injEq]
    norm_num

/-! ## The preview against the full calculation -/

theorem find_standard (a : Appliance) (ha : a ∈ standardAppliances) :
    standardAppliances.find? (fun b => decide (b.id = a.id)) = some a := by
  simp only [standardAppliances, List.mem_cons, List.mem_singleton, List.not_mem_nil,
    or_false] at ha
  rcases ha with rfl | rfl | rfl | rfl | rfl | rfl | rfl | rfl <;> simp [standardAppliances]

theorem standard_item_spec (item : ApplianceItem) (h : isStandardItem item = true) :
    ∃ a ∈ standardAppliances,
      item.id = a.id ∧ item.nozzles = a.nozzles ∧ item.price = a.price := by
  unfold isStandardItem at h
  rw [List.any_eq_true] at h
  obtain ⟨a, ha, hdec⟩ := h
  exact ⟨a, ha, of_decide_eq_true hdec⟩

theorem preview_nozzles_fold (l : List ApplianceItem)
    (hstd : ∀ item ∈ l, isStandardItem item = true) (z : ℤ) :
    l.foldl (fun acc item => acc + orInt (some item.nozzles) 1) z =
      z + ((l.filterMap (fun item =>
        standardAppliances.find? (fun a => decide (a.id = item.id)))).map
          Appliance.nozzles).sum := by
  induction l generalizing z with
  | nil => simp
  | cons item t ih =>
    obtain ⟨a, ha, hid, hn, -⟩ := standard_item_spec item (hstd item (List.mem_cons_self _ _))
    have hfind : standardAppliances.find? (fun b => decide (b.id = item.id)) = some a := by
      rw [hid]; exact find_standard a ha
    have hnz : orInt (some item.nozzles) 1 = a.nozzles := by
      have h1 := (standard_bounds a ha).1
      rw [hn]
      exact orInt_of_ne_zero _ _ (by omega)
    rw [List.foldl_cons, ih (fun i hi => hstd i (List.mem_cons_of_mem _ hi)),
      List.filterMap_cons, hfind, hnz]
    simp [add_assoc]

theorem preview_prices_fold (l : List ApplianceItem)
    (hstd : ∀ item ∈ l, isStandardItem item = true) (z : ℚ) :
    l.foldl (fun acc item => acc + orNum (some item.price) 0) z =
      z + ((l.filterMap (fun item =>
        standardAppliances.find? (fun a => decide (a.id = item.id)))).map
          Appliance.price).sum := by
  induction l generalizing z with
  | nil => simp
  | cons item t ih =>
    obtain ⟨a, ha, hid, -, hpr⟩ := standard_item_spec item (hstd item (List.mem_cons_self _ _))
    have hfind : standardAppliances.find? (fun b => decide (b.id = item.id)) = some a := by
      rw [hid]; exact find_standard a ha
    have hpz : orNum (some item.price) 0 = a.price := by
      rw [hpr]
      unfold orNum
      simp only
      split_ifs with h0
      · exact h0.symm
      · rfl
    rw [List.foldl_cons, ih (fun i hi => hstd i (List.mem_cons_of_mem _ hi)),
      List.filterMap_cons, hfind, hpz]
    simp [add_assoc]

theorem selected_standard (items : List ApplianceItem)
    (hstd : ∀ item ∈ items, item.selected = true → isStandardItem item = true) :
    ∀ item ∈ items.filter (fun item => item.selected), isStandardItem item = true := by
  intro item hitem
  rw [List.mem_filter] at hitem
  exact hstd item hitem.1 hitem.2

theorem preview_total_eq (clock : Clock) (st : State) (p d : ℤ)
    (hp : st.form.plenumSections = some p) (hp0 : p ≠ 0)
    (hd : st.form.ductSections = some d) (hd0 : d ≠ 0)
    (hstd : ∀ item ∈ st.form.applianceItems, item.selected = true → isStandardItem item = true) :
    (updateSummary st).totalNozzles = (newCalculation clock st).results.nozzles.total := by
  have hfold := preview_nozzles_fold _ (selected_standard _ hstd) 0
  simp only [updateSummary, newCalculation, buildCalculation, readForm, hp, hd,
    orInt_of_ne_zero p _ hp0, orInt_of_ne_zero d _ hd0, hfold, sumNozzles_eq, selectAppliances,
    zero_add]

theorem preview_cost_eq (st : State)
    (hstd : ∀ item ∈ st.form.applianceItems, item.selected = true → isStandardItem item = true) :
    (st.form.applianceItems.filter (fun item => item.selected)).foldl
        (fun acc item => acc + orNum (some item.price) 0) 0 =
      sumPrices (selectAppliances st.form.applianceItems) := by
  rw [preview_prices_fold _ (selected_standard _ hstd) 0, sumPrices_eq, selectAppliances,
    zero_add]

theorem sample_items_standard :
    ∀ item ∈ sampleState.form.applianceItems, item.selected = true →
      isStandardItem item = true := by
  intro item hitem hsel
  have hnone : ∀ i ∈ sampleState.form.applianceItems, i.selected = false := by decide
  rw [hnone item hitem] at hsel
  exact absurd hsel (by decide)

/-- C22: for a form whose section count fields hold integers `>= 1`, whose selected items are
all catalogue items, with expert mode off, when `performCalculation` passes validation (so the
hood dimensions are `> 0`) the preview `updateSummary` shows the total nozzle count, cylinder
count, agent weight and piping length that the full calculation stores, and the stored total cost
is `1 + safetyFactor / 100` times the total cost of the preview. -/
theorem preview_agrees_with_full (ser : Serializer) (clock : Clock) (st : State) (p d : ℤ)
    (h : (performCalculation ser clock st).2 = Outcome.redirect "results.html")
    (hp : st.form.plenumSections = some p) (hp1 : 1 ≤ p)
    (hd : st.form.ductSections = some d) (hd1 : 1 ≤ d)
    (hstd : ∀ item ∈ st.form.applianceItems, item.selected = true → isStandardItem item = true)
    (hexp : st.expertMode = false) :
    ∃ r, (performCalculation ser clock st).1.currentCalculation = some r ∧
      0 < r.configuration.hood.length ∧ 0 < r.configuration.hood.depth ∧
      (updateSummary st).totalNozzles = r.results.nozzles.total ∧
      (updateSummary st).cylinders = r.results.cylinders ∧
      (updateSummary st).agentWeight = r.results.agentWeight ∧
      (updateSummary st).pipingLength = r.results.pipingLength ∧
      r.results.totalCost =
        (1 + (r.configuration.system.safetyFactor : ℚ) / 100) * (updateSummary st).totalCost := by
  obtain ⟨-, v3, v4⟩ := valid_of_redirect h
  have hN := preview_total_eq clock st p d hp (by omega) hd (by omega) hstd
  have hcost := preview_cost_eq st hstd
  have hc : (updateSummary st).cylinders = (newCalculation clock st).results.cylinders := by
    have h1 : (updateSummary st).cylinders = ceilDiv6 (updateSummary st).totalNozzles := rfl
    rw [h1, hN]
    rfl
  have hw : (updateSummary st).agentWeight = (newCalculation clock st).results.agentWeight := by
    have h1 : (updateSummary st).agentWeight = ((updateSummary st).cylinders : ℚ) * 5.7 := rfl
    rw [h1, hc]
    rfl
  have hL : (updateSummary st).pipingLength = (newCalculation clock st).results.pipingLength := by
    have h1 : (updateSummary st).pipingLength =
        ((updateSummary st).totalNozzles : ℚ) * 2 + 5 := rfl
    have h2 : (newCalculation clock st).results.pipingLength =
        ((newCalculation clock st).results.nozzles.total : ℚ) * 2 + 5 +
          (if st.expertMode then (readForm st.form).ductLength else 0) := rfl
    rw [h1, h2, hN, hexp]
    simp
  have hT : (updateSummary st).totalCost =
      JsNumber.num (0 + ((updateSummary st).totalNozzles : ℚ) * 85 +
        ((updateSummary st).cylinders : ℚ) *
          (if (updateSummary st).cylinders > 1 then 1900 else 1200) +
        (updateSummary st).pipingLength * 35 + 1800 + 250 + 850 + 400 +
        (st.form.applianceItems.filter (fun item => item.selected)).foldl
          (fun acc item => acc + orNum (some item.price) 0) 0) *
        exchangeRateFor (orStr st.form.currency "USD") := rfl
  have hF : (newCalculation clock st).results.totalCost =
      JsNumber.num ((newCalculation clock st).results.subtotals.total) *
        exchangeRateFor (orStr st.form.currency "USD") := rfl
  have e1 : (newCalculation clock st).results.subtotals.nozzles =
      ((newCalculation clock st).results.nozzles.total : ℚ) * 85 *
        (1 + ((newCalculation clock st).configuration.system.safetyFactor : ℚ) / 100) := rfl
  have e2 : (newCalculation clock st).results.subtotals.cylinders =
      ((newCalculation clock st).results.cylinders : ℚ) *
        (if (newCalculation clock st).results.cylinders > 1 then 1900 else 1200) *
        (1 + ((newCalculation clock st).configuration.system.safetyFactor : ℚ) / 100) := rfl
  have e3 : (newCalculation clock st).results.subtotals.piping =
      (newCalculation clock st).results.pipingLength * 35 *
        (1 + ((newCalculation clock st).configuration.system.safetyFactor : ℚ) / 100) := rfl
  have e4 : (newCalculation clock st).results.subtotals.hoodAgentTank =
      1800 * (1 + ((newCalculation clock st).configuration.system.safetyFactor : ℚ) / 100) := rfl
  have e5 : (newCalculation clock st).results.subtotals.manualRelease =
      250 * (1 + ((newCalculation clock st).configuration.system.safetyFactor : ℚ) / 100) := rfl
  have e6 : (newCalculation clock st).results.subtotals.installationLabor =
      850 * (1 + ((newCalculation clock st).configuration.system.safetyFactor : ℚ) / 100) := rfl
  have e7 : (newCalculation clock st).results.subtotals.commissioning =
      400 * (1 + ((newCalculation clock st).configuration.system.safetyFactor : ℚ) / 100) := rfl
  have e8 : (newCalculation clock st).results.subtotals.appliances =
      sumPrices (selectAppliances st.form.applianceItems) *
        (1 + ((newCalculation clock st).configuration.system.safetyFactor : ℚ) / 100) := rfl
  refine ⟨newCalculation clock st, current_of_redirect h, v3, v4, hN, hc, hw, hL, ?_⟩
  rw [hF, hT, total_values, e1, e2, e3, e4, e5, e6, e7, e8, hcost, hN, hc, hL,
    show (1 : JsNumber) = JsNumber.num 1 from rfl,
    show (100 : JsNumber) = JsNumber.num 100 from rfl]
  cases exchangeRateFor (orStr st.form.currency "USD") with
  | num q =>
    simp only [JsNumber.num_add, JsNumber.num_mul, JsNumber.num_div, JsNumber.num.injEq]
    ring
  | notNumber => simp

/-- The theorem `preview_agrees_with_full` at the sample state: preview and full calculation
both give 3 nozzles, and the stored total 5654 is 1.1 times the preview's 5140. -/
theorem preview_agrees_with_full_witness :
    (performCalculation sampleSerializer sampleClock sampleState).2 =
        Outcome.redirect "results.html" ∧
      ∃ r, (performCalculation sampleSerializer sampleClock sampleState).1.currentCalculation =
          some r ∧
        (updateSummary sampleState).totalNozzles = r.results.nozzles.total ∧
        (updateSummary sampleState).pipingLength = r.results.pipingLength ∧
        r.results.totalCost =
          (1 + (r.configuration.system.safetyFactor : ℚ) / 100) *
            (updateSummary sampleState).totalCost := by
  refine ⟨sample_redirect, ?_⟩
  obtain ⟨r, hr, -, -, hn, -, -, hl, ht⟩ :=
    preview_agrees_with_full sampleSerializer sampleClock sampleState 2 1 sample_redirect rfl
      (by decide) rfl (by decide) sample_items_standard rfl
  exact ⟨r, hr, hn, hl, ht⟩

theorem expert_redirect :
    (performCalculation sampleSerializer sampleClock expertSampleState).2 =
      Outcome.redirect "results.html" :=
  redirect_of_form_eq sampleSerializer sampleClock expertSampleState
    (show expertSampleState.form = sampleState.form from rfl) sample_redirect

theorem zero_sections_redirect :
    (performCalculation sampleSerializer sampleClock zeroSectionsState).2 =
      Outcome.redirect "results.html" :=
  redirect_of_valid sampleSerializer sampleClock (by decide) (by decide)
    (by norm_num [zeroSectionsState, sampleState, sampleForm, readForm, orNum])
    (by norm_num [zeroSectionsState, sampleState, sampleForm, readForm, orNum])

/-- C23, counterexample: in expert mode with duct length 5.0 the full calculation stores the
piping length 16 for the sample form while the preview shows 11; and with both section count
fields reading 0 the full calculation stores no nozzle at all while the preview counts 2 plenum
and 1 duct nozzle, 3 in all. -/
theorem preview_differs_from_full :
    ((performCalculation sampleSerializer sampleClock expertSampleState).2 =
        Outcome.redirect "results.html" ∧
      ∃ r, (performCalculation sampleSerializer sampleClock
          expertSampleState).1.currentCalculation = some r ∧
        r.results.nozzles.total = 3 ∧
        r.configuration.hood.ductLength = 5 ∧
        r.results.pipingLength = 16 ∧
        (updateSummary expertSampleState).totalNozzles = 3 ∧
        (updateSummary expertSampleState).pipingLength = 11) ∧
      ((performCalculation sampleSerializer sampleClock zeroSectionsState).2 =
        Outcome.redirect "results.html" ∧
      ∃ r, (performCalculation sampleSerializer sampleClock
          zeroSectionsState).1.currentCalculation = some r ∧
        r.results.nozzles.total = 0 ∧
        (updateSummary zeroSectionsState).plenumNozzles = 2 ∧
        (updateSummary zeroSectionsState).ductNozzles = 1 ∧
        (updateSummary zeroSectionsState).applianceNozzles = 0 ∧
        (updateSummary zeroSectionsState).totalNozzles = 3) := by
  have hselE : selectAppliances expertSampleState.form.applianceItems = [] := by decide
  have hselZ : selectAppliances zeroSectionsState.form.applianceItems = [] := by decide
  have hnE : (newCalculation sampleClock expertSampleState).results.nozzles.total = 3 := by
    simp only [newCalculation, buildCalculation, hselE]
    decide
  have hnZ : (newCalculation sampleClock zeroSectionsState).results.nozzles.total = 0 := by
    simp only [newCalculation, buildCalculation, hselZ]
    decide
  have hdE : (newCalculation sampleClock expertSampleState).configuration.hood.ductLength = 5 := by
    norm_num [newCalculation, buildCalculation, expertSampleState, sampleState, sampleForm,
      readForm, orNum]
  have hpE : (newCalculation sampleClock expertSampleState).results.pipingLength =
      ((newCalculation sampleClock expertSampleState).results.nozzles.total : ℚ) * 2 + 5 +
        (newCalculation sampleClock expertSampleState).configuration.hood.ductLength := rfl
  have hsN : (updateSummary expertSampleState).totalNozzles = 3 := by decide
  have hsL : (updateSummary expertSampleState).pipingLength =
      ((updateSummary expertSampleState).totalNozzles : ℚ) * 2 + 5 := rfl
  refine ⟨⟨expert_redirect, _, current_of_redirect expert_redirect, hnE, hdE, ?_, hsN, ?_⟩,
    ⟨zero_sections_redirect, _, current_of_redirect zero_sections_redirect, hnZ, by decide,
      by decide, by decide, by decide⟩⟩
  · rw [hpE, hnE, hdE]; norm_num
  · rw [hsL, hsN]; norm_num

/-- C23, amended: for every form state the preview `updateSummary` computes the total nozzle
count as its plenum count plus its duct count plus its appliance nozzle count, the cylinders as
`ceil(total / 6)`, the agent weight as 5.7 per cylinder and the piping length as
`2 * total + 5`, with no duct length term and no dependence on the expert mode; its section
counts are the entered values when these are integers other than 0, and 2 and 1 when the field is
missing or invalid. When both section fields hold integers other than 0, the selected items are
catalogue items and the full calculation passes validation, the preview's total nozzle count,
cylinders and agent weight are those of the stored record, whose piping length is the preview's
plus the duct length in expert mode. -/
theorem preview_steps (st : State) :
    (updateSummary st).totalNozzles =
        (updateSummary st).plenumNozzles + (updateSummary st).ductNozzles +
          (updateSummary st).applianceNozzles ∧
      (updateSummary st).cylinders = ⌈((updateSummary st).totalNozzles : ℚ) / 6⌉ ∧
      (updateSummary st).agentWeight = ((updateSummary st).cylinders : ℚ) * 5.7 ∧
      (updateSummary st).pipingLength = 2 * ((updateSummary st).totalNozzles : ℚ) + 5 ∧
      (∀ b : Bool, updateSummary { st with expertMode := b } = updateSummary st) ∧
      (st.form.plenumSections = none → (updateSummary st).plenumNozzles = 2) ∧
      (∀ p, p ≠ 0 → st.form.plenumSections = some p → (updateSummary st).plenumNozzles = p) ∧
      (st.form.ductSections = none → (updateSummary st).ductNozzles = 1) ∧
      (∀ d, d ≠ 0 → st.form.ductSections = some d → (updateSummary st).ductNozzles = d) ∧
      (∀ (ser : Serializer) (clock : Clock) (p d : ℤ),
        (performCalculation ser clock st).2 = Outcome.redirect "results.html" →
        st.form.plenumSections = some p → p ≠ 0 → st.form.ductSections = some d → d ≠ 0 →
        (∀ item ∈ st.form.applianceItems, item.selected = true → isStandardItem item = true) →
        ∃ r, (performCalculation ser clock st).1.currentCalculation = some r ∧
          (updateSummary st).totalNozzles = r.results.nozzles.total ∧
          (updateSummary st).cylinders = r.results.cylinders ∧
          (updateSummary st).agentWeight = r.results.agentWeight ∧
          r.results.pipingLength =
            (updateSummary st).pipingLength +
              (if st.expertMode then r.configuration.hood.ductLength else 0)) := by
  refine ⟨rfl, rfl, rfl, ?_, fun b => rfl, ?_, ?_, ?_, ?_, ?_⟩
  · have h1 : (updateSummary st).pipingLength =
        ((updateSummary st).totalNozzles : ℚ) * 2 + 5 := rfl
    rw [h1]; ring
  · intro h
    simp [updateSummary, h, orInt]
  · intro p hp0 h
    simp [updateSummary, h, orInt_of_ne_zero p _ hp0]
  · intro h
    simp [updateSummary, h, orInt]
  · intro d hd0 h
    simp [updateSummary, h, orInt_of_ne_zero d _ hd0]
  · intro ser clock p d h hp hp0 hd hd0 hstd
    have hN := preview_total_eq clock st p d hp hp0 hd hd0 hstd
    have hc : (updateSummary st).cylinders = (newCalculation clock st).results.cylinders := by
      have h1 : (updateSummary st).cylinders = ceilDiv6 (updateSummary st).totalNozzles := rfl
      rw [h1, hN]
      rfl
    have hw : (updateSummary st).agentWeight =
        (newCalculation clock st).results.agentWeight := by
      have h1 : (updateSummary st).agentWeight = ((updateSummary st).cylinders : ℚ) * 5.7 := rfl
      rw [h1, hc]
      rfl
    have h1 : (updateSummary st).pipingLength =
        ((updateSummary st).totalNozzles : ℚ) * 2 + 5 := rfl
    have h2 : (newCalculation clock st).results.pipingLength =
        ((newCalculation clock st).results.nozzles.total : ℚ) * 2 + 5 +
          (if st.expertMode then (newCalculation clock st).configuration.hood.ductLength
            else 0) := rfl
    refine ⟨newCalculation clock st, current_of_redirect h, hN, hc, hw, ?_⟩
    rw [h1, h2, hN]

/-- The theorem `preview_steps` at the sample state in expert mode: the preview shows 3 nozzles
and the stored piping length is the preview's plus the duct length. -/
theorem preview_steps_witness :
    ∃ r, (performCalculation sampleSerializer sampleClock
        expertSampleState).1.currentCalculation = some r ∧
      (updateSummary expertSampleState).totalNozzles = r.results.nozzles.total ∧
      r.results.pipingLength =
        (updateSummary expertSampleState).pipingLength +
          (if expertSampleState.expertMode then r.configuration.hood.ductLength else 0) := by
  obtain ⟨r, hr, hn, -, -, hl⟩ :=
    (preview_steps expertSampleState).2.2.2.2.2.2.2.2.2 sampleSerializer sampleClock 2 1
      expert_redirect rfl (by decide) rfl (by decide) sample_items_standard
  exact ⟨r, hr, hn, hl⟩

/-! ## Monotonicity of the cost -/

theorem cylinder_cost_mono (c1 c2 : ℤ) (h : c1 ≤ c2) :
    (c1 : ℚ) * (if c1 > 1 then 1900 else 1200) ≤ (c2 : ℚ) * (if c2 > 1 then 1900 else 1200) := by
  have hq : (c1 : ℚ) ≤ (c2 : ℚ) := by exact_mod_cast h
  split_ifs with a b b
  · linarith
  · omega
  · have h1 : (c1 : ℚ) ≤ 1 := by exact_mod_cast (show c1 ≤ 1 by omega)
    have h2 : (2 : ℚ) ≤ (c2 : ℚ) := by exact_mod_cast (show (2 : ℤ) ≤ c2 by omega)
    linarith
  · linarith

theorem exchangeRateFor_pos (currency : String) (h : currency ∉ objectPrototypeKeys) :
    ∃ q : ℚ, 0 < q ∧ exchangeRateFor currency = JsNumber.num q := by
  unfold exchangeRateFor exchangeRates
  split_ifs
  · exact ⟨1.0, by norm_num, orRate_num _ _ (by norm_num)⟩
  · exact ⟨0.92, by norm_num, orRate_num _ _ (by norm_num)⟩
  · exact ⟨83.0, by norm_num, orRate_num _ _ (by norm_num)⟩
  · exact ⟨3.67, by norm_num, orRate_num _ _ (by norm_num)⟩
  · exact ⟨1, by norm_num, rfl⟩

theorem exchangeRateFor_inherited (currency : String) (h : currency ∈ objectPrototypeKeys) :
    exchangeRateFor currency = JsNumber.notNumber := by
  have h1 : currency ≠ "USD" := by
    intro hc; rw [hc] at h; exact absurd h (by decide)
  have h2 : currency ≠ "EUR" := by
    intro hc; rw [hc] at h; exact absurd h (by decide)
  have h3 : currency ≠ "INR" := by
    intro hc; rw [hc] at h; exact absurd h (by decide)
  have h4 : currency ≠ "AED" := by
    intro hc; rw [hc] at h; exact absurd h (by decide)
  simp [exchangeRateFor, exchangeRates, h1, h2, h3, h4, h, orRate]

theorem sublist_nozzles_le (l1 l2 : List Appliance) (h : l1.Sublist l2)
    (hstd : ∀ a ∈ l2, a ∈ standardAppliances) :
    (l1.map Appliance.nozzles).sum ≤ (l2.map Appliance.nozzles).sum := by
  apply List.Sublist.sum_le_sum (h.map _)
  intro x hx
  rw [List.mem_map] at hx
  obtain ⟨a, ha, rfl⟩ := hx
  have := (standard_bounds a (hstd a ha)).1
  omega

theorem sublist_prices_le (l1 l2 : List Appliance) (h : l1.Sublist l2)
    (hstd : ∀ a ∈ l2, a ∈ standardAppliances) :
    (l1.map Appliance.price).sum ≤ (l2.map Appliance.price).sum := by
  apply List.Sublist.sum_le_sum (h.map _)
  intro x hx
  rw [List.mem_map] at hx
  obtain ⟨a, ha, rfl⟩ := hx
  exact (standard_bounds a (hstd a ha)).2.2

/-- C25, counterexample: with the currency field reading `toString`, the runs of
`performCalculation` on the sample form (3 nozzles) and on the sample form with six plenum
sections (7 nozzles) both pass validation; the lookup `exchangeRates[currency]` finds the
function inherited from `Object.prototype`, both stored total costs are `NaN`, and the second is
not at least the first, although every section count, the appliance list, the duct length, the
expert mode and the safety factor 10 satisfy the conditions. -/
theorem inherited_currency_not_monotone :
    (performCalculation sampleSerializer sampleClock inheritedCurrencyState).2 =
        Outcome.redirect "results.html" ∧
      (performCalculation sampleSerializer laterClock inheritedCurrencySevenState).2 =
        Outcome.redirect "results.html" ∧
      ∃ r1 r2,
        (performCalculation sampleSerializer sampleClock
          inheritedCurrencyState).1.currentCalculation = some r1 ∧
        (performCalculation sampleSerializer laterClock
          inheritedCurrencySevenState).1.currentCalculation = some r2 ∧
        r1.project.currency = "toString" ∧ r2.project.currency = "toString" ∧
        r1.configuration.hood.plenumSections = 2 ∧ r2.configuration.hood.plenumSections = 6 ∧
        r1.configuration.hood.ductSections = 1 ∧ r2.configuration.hood.ductSections = 1 ∧
        r1.configuration.appliances = [] ∧ r2.configuration.appliances = [] ∧
        r1.configuration.system.safetyFactor = 10 ∧ r2.configuration.system.safetyFactor = 10 ∧
        r1.results.exchangeRate = JsNumber.notNumber ∧
        r1.results.totalCost = JsNumber.notNumber ∧
        r2.results.totalCost = JsNumber.notNumber ∧
        ¬ r1.results.totalCost ≤ r2.results.totalCost := by
  have hr1 : (performCalculation sampleSerializer sampleClock inheritedCurrencyState).2 =
      Outcome.redirect "results.html" :=
    redirect_of_valid sampleSerializer sampleClock (by decide) (by decide)
      (by norm_num [inheritedCurrencyState, sampleState, sampleForm, readForm, orNum])
      (by norm_num [inheritedCurrencyState, sampleState, sampleForm, readForm, orNum])
  have hr2 : (performCalculation sampleSerializer laterClock inheritedCurrencySevenState).2 =
      Outcome.redirect "results.html" :=
    redirect_of_valid sampleSerializer laterClock (by decide) (by decide)
      (by norm_num [inheritedCurrencySevenState, sampleState, sampleForm, readForm, orNum])
      (by norm_num [inheritedCurrencySevenState, sampleState, sampleForm, readForm, orNum])
  have hrate : exchangeRateFor "toString" = JsNumber.notNumber :=
    exchangeRateFor_inherited "toString" (by decide)
  have hx1 : (newCalculation sampleClock inheritedCurrencyState).results.exchangeRate =
      JsNumber.notNumber := by
    have hx : (newCalculation sampleClock inheritedCurrencyState).results.exchangeRate =
        exchangeRateFor (readForm inheritedCurrencyState.form).currency := rfl
    have hc : (readForm inheritedCurrencyState.form).currency = "toString" := by decide
    rw [hx, hc, hrate]
  have ht1 : (newCalculation sampleClock inheritedCurrencyState).results.totalCost =
      JsNumber.notNumber := by
    have hx : (newCalculation sampleClock inheritedCurrencyState).results.totalCost =
        JsNumber.num (newCalculation sampleClock inheritedCurrencyState).results.subtotals.total *
          (newCalculation sampleClock inheritedCurrencyState).results.exchangeRate := rfl
    rw [hx, hx1, JsNumber.mul_notNumber]
  have ht2 : (newCalculation laterClock inheritedCurrencySevenState).results.totalCost =
      JsNumber.notNumber := by
    have hx : (newCalculation laterClock inheritedCurrencySevenState).results.totalCost =
        JsNumber.num
            (newCalculation laterClock inheritedCurrencySevenState).results.subtotals.total *
          exchangeRateFor (readForm inheritedCurrencySevenState.form).currency := rfl
    have hc : (readForm inheritedCurrencySevenState.form).currency = "toString" := by decide
    rw [hx, hc, hrate, JsNumber.mul_notNumber]
  refine ⟨hr1, hr2, _, _, current_of_redirect hr1, current_of_redirect hr2, by decide,
    by decide, by decide, by decide, by decide, by decide, by decide, by decide, by decide,
    by decide, hx1, ht1, ht2, ?_⟩
  rw [ht1]
  exact JsNumber.not_notNumber_le _

/-- C25, amended: for two runs of `performCalculation` that pass validation with the same
currency, which is not the name of a member inherited from `Object.prototype`, the same expert
mode setting, duct length and safety factor `s >= 0`, if the second run has section counts at
least those of the first and an appliance list of which the first run's is a sublist, then the
second record's total nozzle count, cylinder count, eight subtotals and total cost are each at
least the first's. (The section counts need not be non-negative for this.) -/
theorem total_cost_monotone (ser : Serializer) (clock1 clock2 : Clock) (st1 st2 : State)
    (h1 : (performCalculation ser clock1 st1).2 = Outcome.redirect "results.html")
    (h2 : (performCalculation ser clock2 st2).2 = Outcome.redirect "results.html")
    (hcur : (readForm st1.form).currency = (readForm st2.form).currency)
    (hkey : (readForm st2.form).currency ∉ objectPrototypeKeys)
    (hexp : st1.expertMode = st2.expertMode)
    (hduct : (readForm st1.form).ductLength = (readForm st2.form).ductLength)
    (hsf : (readForm st1.form).safetyFactor = (readForm st2.form).safetyFactor)
    (hs0 : 0 ≤ (readForm st1.form).safetyFactor)
    (hp : (readForm st1.form).plenumSections ≤ (readForm st2.form).plenumSections)
    (hd : (readForm st1.form).ductSections ≤ (readForm st2.form).ductSections)
    (happ : (selectAppliances st1.form.applianceItems).Sublist
      (selectAppliances st2.form.applianceItems)) :
    ∃ r1 r2, (performCalculation ser clock1 st1).1.currentCalculation = some r1 ∧
      (performCalculation ser clock2 st2).1.currentCalculation = some r2 ∧
      r1.results.nozzles.total ≤ r2.results.nozzles.total ∧
      r1.results.cylinders ≤ r2.results.cylinders ∧
      r1.results.subtotals.nozzles ≤ r2.results.subtotals.nozzles ∧
      r1.results.subtotals.cylinders ≤ r2.results.subtotals.cylinders ∧
      r1.results.subtotals.piping ≤ r2.results.subtotals.piping ∧
      r1.results.subtotals.hoodAgentTank ≤ r2.results.subtotals.hoodAgentTank ∧
      r1.results.subtotals.manualRelease ≤ r2.results.subtotals.manualRelease ∧
      r1.results.subtotals.installationLabor ≤ r2.results.subtotals.installationLabor ∧
      r1.results.subtotals.commissioning ≤ r2.results.subtotals.commissioning ∧
      r1.results.subtotals.appliances ≤ r2.results.subtotals.appliances ∧
      r1.results.totalCost ≤ r2.results.totalCost := by
  have hstd2 : ∀ a ∈ selectAppliances st2.form.applianceItems, a ∈ standardAppliances :=
    fun a ha => selectAppliances_standard _ a ha
  have hsumN := sublist_nozzles_le _ _ happ hstd2
  have hsumP := sublist_prices_le _ _ happ hstd2
  have t1 : (newCalculation clock1 st1).results.nozzles.total =
      (readForm st1.form).plenumSections + (readForm st1.form).ductSections +
        ((selectAppliances st1.form.applianceItems).map Appliance.nozzles).sum := by
    simp [newCalculation, buildCalculation, sumNozzles_eq]
  have t2 : (newCalculation clock2 st2).results.nozzles.total =
      (readForm st2.form).plenumSections + (readForm st2.form).ductSections +
        ((selectAppliances st2.form.applianceItems).map Appliance.nozzles).sum := by
    simp [newCalculation, buildCalculation, sumNozzles_eq]
  have hn : (newCalculation clock1 st1).results.nozzles.total ≤
      (newCalculation clock2 st2).results.nozzles.total := by
    rw [t1, t2]; omega
  have c1 : (newCalculation clock1 st1).results.cylinders =
      ((newCalculation clock1 st1).results.nozzles.total + 5) / 6 := ceilDiv6_eq _
  have c2 : (newCalculation clock2 st2).results.cylinders =
      ((newCalculation clock2 st2).results.nozzles.total + 5) / 6 := ceilDiv6_eq _
  have hc : (newCalculation clock1 st1).results.cylinders ≤
      (newCalculation clock2 st2).results.cylinders := by
    rw [c1, c2]; omega
  have hnq : ((newCalculation clock1 st1).results.nozzles.total : ℚ) ≤
      ((newCalculation clock2 st2).results.nozzles.total : ℚ) := by exact_mod_cast hn
  have hm : (0 : ℚ) ≤ 1 + ((readForm st2.form).safetyFactor : ℚ) / 100 := by
    have hsq : (0 : ℚ) ≤ ((readForm st2.form).safetyFactor : ℚ) := by
      rw [← hsf]; exact_mod_cast hs0
    positivity
  have p1 : (newCalculation clock1 st1).results.pipingLength =
      ((newCalculation clock1 st1).results.nozzles.total : ℚ) * 2 + 5 +
        (if st2.expertMode then (readForm st2.form).ductLength else 0) := by
    rw [← hexp, ← hduct]; rfl
  have p2 : (newCalculation clock2 st2).results.pipingLength =
      ((newCalculation clock2 st2).results.nozzles.total : ℚ) * 2 + 5 +
        (if st2.expertMode then (readForm st2.form).ductLength else 0) := rfl
  have hL : (newCalculation clock1 st1).results.pipingLength ≤
      (newCalculation clock2 st2).results.pipingLength := by
    rw [p1, p2]; linarith
  have e1 : ∀ (c : Clock) (st : State), (newCalculation c st).results.subtotals.nozzles =
      ((newCalculation c st).results.nozzles.total : ℚ) * 85 *
        (1 + ((readForm st.form).safetyFactor : ℚ) / 100) := fun _ _ => rfl
  have e2 : ∀ (c : Clock) (st : State), (newCalculation c st).results.subtotals.cylinders =
      ((newCalculation c st).results.cylinders : ℚ) *
        (if (newCalculation c st).results.cylinders > 1 then 1900 else 1200) *
        (1 + ((readForm st.form).safetyFactor : ℚ) / 100) := fun _ _ => rfl
  have e3 : ∀ (c : Clock) (st : State), (newCalculation c st).results.subtotals.piping =
      (newCalculation c st).results.pipingLength * 35 *
        (1 + ((readForm st.form).safetyFactor : ℚ) / 100) := fun _ _ => rfl
  have e4 : ∀ (c : Clock) (st : State), (newCalculation c st).results.subtotals.hoodAgentTank =
      1800 * (1 + ((readForm st.form).safetyFactor : ℚ) / 100) := fun _ _ => rfl
  have e5 : ∀ (c : Clock) (st : State), (newCalculation c st).results.subtotals.manualRelease =
      250 * (1 + ((readForm st.form).safetyFactor : ℚ) / 100) := fun _ _ => rfl
  have e6 : ∀ (c : Clock) (st : State),
      (newCalculation c st).results.subtotals.installationLabor =
        850 * (1 + ((readForm st.form).safetyFactor : ℚ) / 100) := fun _ _ => rfl
  have e7 : ∀ (c : Clock) (st : State), (newCalculation c st).results.subtotals.commissioning =
      400 * (1 + ((readForm st.form).safetyFactor : ℚ) / 100) := fun _ _ => rfl
  have e8 : ∀ (c : Clock) (st : State), (newCalculation c st).results.subtotals.appliances =
      ((selectAppliances st.form.applianceItems).map Appliance.price).sum *
        (1 + ((readForm st.form).safetyFactor : ℚ) / 100) := by
    intro c st
    rw [← sumPrices_eq]
    rfl
  have s1 : (newCalculation clock1 st1).results.subtotals.nozzles ≤
      (newCalculation clock2 st2).results.subtotals.nozzles := by
    rw [e1, e1, hsf]
    exact mul_le_mul_of_nonneg_right (by linarith) hm
  have s2 : (newCalculation clock1 st1).results.subtotals.cylinders ≤
      (newCalculation clock2 st2).results.subtotals.cylinders := by
    rw [e2, e2, hsf]
    exact mul_le_mul_of_nonneg_right (cylinder_cost_mono _ _ hc) hm
  have s3 : (newCalculation clock1 st1).results.subtotals.piping ≤
      (newCalculation clock2 st2).results.subtotals.piping := by
    rw [e3, e3, hsf]
    exact mul_le_mul_of_nonneg_right (by linarith) hm
  have s4 : (newCalculation clock1 st1).results.subtotals.hoodAgentTank ≤
      (newCalculation clock2 st2).results.subtotals.hoodAgentTank := by
    rw [e4, e4, hsf]
  have s5 : (newCalculation clock1 st1).results.subtotals.manualRelease ≤
      (newCalculation clock2 st2).results.subtotals.manualRelease := by
    rw [e5, e5, hsf]
  have s6 : (newCalculation clock1 st1).results.subtotals.installationLabor ≤
      (newCalculation clock2 st2).results.subtotals.installationLabor := by
    rw [e6, e6, hsf]
  have s7 : (newCalculation clock1 st1).results.subtotals.commissioning ≤
      (newCalculation clock2 st2).results.subtotals.commissioning := by
    rw [e7, e7, hsf]
  have s8 : (newCalculation clock1 st1).results.subtotals.appliances ≤
      (newCalculation clock2 st2).results.subtotals.appliances := by
    rw [e8, e8, hsf]
    exact mul_le_mul_of_nonneg_right hsumP hm
  have r1 : (newCalculation clock1 st1).results.totalCost =
      JsNumber.num (newCalculation clock1 st1).results.subtotals.total *
        exchangeRateFor (readForm st2.form).currency := by
    rw [← hcur]; rfl
  have r2 : (newCalculation clock2 st2).results.totalCost =
      JsNumber.num (newCalculation clock2 st2).results.subtotals.total *
        exchangeRateFor (readForm st2.form).currency := rfl
  obtain ⟨q, hq, hrate⟩ := exchangeRateFor_pos _ hkey
  refine ⟨newCalculation clock1 st1, newCalculation clock2 st2, current_of_redirect h1,
    current_of_redirect h2, hn, hc, s1, s2, s3, s4, s5, s6, s7, s8, ?_⟩
  rw [r1, r2, hrate, total_values, total_values, JsNumber.num_mul, JsNumber.num_mul,
    JsNumber.num_le]
  exact mul_le_mul_of_nonneg_right (by linarith) (le_of_lt hq)

/-- The theorem `total_cost_monotone` at the sample state (3 nozzles, 1 cylinder) and the sample
state with six plenum sections (7 nozzles, 2 cylinders): no stored amount goes down. -/
theorem total_cost_monotone_witness :
    ∃ r1 r2, (performCalculation sampleSerializer sampleClock sampleState).1.currentCalculation =
        some r1 ∧
      (performCalculation sampleSerializer laterClock sevenNozzleState).1.currentCalculation =
        some r2 ∧
      r1.results.nozzles.total ≤ r2.results.nozzles.total ∧
      r1.results.cylinders ≤ r2.results.cylinders ∧
      r1.results.subtotals.cylinders ≤ r2.results.subtotals.cylinders ∧
      r1.results.totalCost ≤ r2.results.totalCost := by
  have h7 : (performCalculation sampleSerializer laterClock sevenNozzleState).2 =
      Outcome.redirect "results.html" :=
    redirect_of_form_eq sampleSerializer laterClock sevenNozzleState rfl seven_redirect
  have happ : (selectAppliances sampleState.form.applianceItems).Sublist
      (selectAppliances sevenNozzleState.form.applianceItems) := by
    rw [sample_selected]
    exact List.nil_sublist _
  obtain ⟨r1, r2, hr1, hr2, hn, hc, -, hsc, -, -, -, -, -, -, ht⟩ :=
    total_cost_monotone sampleSerializer sampleClock laterClock sampleState sevenNozzleState
      sample_redirect h7 rfl (by decide) rfl rfl rfl (by decide) (by decide) (by decide) happ
  exact ⟨r1, r2, hr1, hr2, hn, hc, hsc, ht⟩

end KFSS
